import Mathlib

/-
  Verification of the boundary static-host repository excerpt:
  error taxonomy, API error handler, and the transactional repository
  operations for host catalogs, hosts and host-set membership.

  Source files embedded:
    internal/host/static/repository_host_set_member.go
    internal/host/static/repository_host.go        (src/unnamed/part_000)
    internal/host/static/repository_host_catalog.go (second half of errors_test.go bundle)
    internal/host/static/public_ids.go
    internal/errors registry (errorCodeInfo, in src/unnamed/part_001)

  The errors package implementation (New/Wrap/Convert/Error) and the
  handlers.ErrorHandler implementation are not part of the excerpt: only
  their tests and the code registry are.  Those definitions are modelled
  from the spec (and constrained by the in-source tests), and are marked
  "Modelled from the spec:" in their doc comments.

  Store, KMS and oplog collaborators are external per the spec; they are
  modelled by an explicit environment (`Env`) of call outcomes, and each
  repository operation additionally returns the list of collaborator
  events it performed (`Event`), so that ordering claims (wrapper
  resolution vs. transaction open, oplog writes, rollbacks) are provable.
-/

namespace Boundary

/-- Domain error codes, one per entry of the `errorCodeInfo` registry in
the source (src/unnamed/part_001, package errors). -/
inductive Code where
  | unknown
  | invalidParameter
  | invalidAddress
  | invalidFieldMask
  | emptyFieldMask
  | missingScopeId
  | missingPublicId
  | missingSetId
  | missingVersion
  | missingCatalogId
  | missingHostIds
  | generateId
  | checkConstraint
  | notNull
  | notUnique
  | notSpecificIntegrity
  | missingTable
  | recordNotFound
  | multipleRecords
deriving DecidableEq, Repr

/-- Error kinds, per the spec §4.1: Parameter, Integrity, Search, Other. -/
inductive Kind where
  | other
  | parameter
  | integrity
  | search
deriving DecidableEq, Repr

/-- Kind and default message for a code (the registry entry). -/
structure Info where
  kind : Kind
  message : String
deriving DecidableEq, Repr

/-- The static code registry, transcribed entry for entry from the
`errorCodeInfo` map in src/unnamed/part_001. -/
def errorCodeInfo : Code → Info
  | .unknown => ⟨.other, "unknown"⟩
  | .invalidParameter => ⟨.parameter, "invalid parameter"⟩
  | .invalidAddress => ⟨.parameter, "invalid address"⟩
  | .invalidFieldMask => ⟨.parameter, "invalid field mask"⟩
  | .emptyFieldMask => ⟨.parameter, "empty field"⟩
  | .missingScopeId => ⟨.parameter, "missing scope id"⟩
  | .missingPublicId => ⟨.parameter, "missing public id"⟩
  | .missingSetId => ⟨.parameter, "missing set id"⟩
  | .missingVersion => ⟨.parameter, "missing version"⟩
  | .missingCatalogId => ⟨.parameter, "missing catalog id"⟩
  | .missingHostIds => ⟨.parameter, "missing host ids"⟩
  | .generateId => ⟨.parameter, "failed to generate ID"⟩
  | .checkConstraint => ⟨.integrity, "constraint check failed"⟩
  | .notNull => ⟨.integrity, "must not be empty (null) violation"⟩
  | .notUnique => ⟨.integrity, "must be unique violation"⟩
  | .notSpecificIntegrity => ⟨.integrity, "Integrity violation without specific details"⟩
  | .missingTable => ⟨.integrity, "missing table"⟩
  | .recordNotFound => ⟨.search, "record not found"⟩
  | .multipleRecords => ⟨.search, "multiple records"⟩

/-- Modelled from the spec: the numeric value of each code ("`Code` is an
integer enumeration", §4.1); the defining constants are not in the
excerpt.  The values for unknown (0), checkConstraint (1000),
notNull (1001), notUnique (1002) and missingTable (1004) are pinned by the
"error #N" strings asserted in TestError_Error and TestConvertError
(src/unnamed/part_001); the remaining values only have to be distinct. -/
def codeNum : Code → Nat
  | .unknown => 0
  | .invalidParameter => 100
  | .invalidAddress => 101
  | .invalidFieldMask => 102
  | .emptyFieldMask => 103
  | .missingScopeId => 104
  | .missingPublicId => 105
  | .missingSetId => 106
  | .missingVersion => 107
  | .missingCatalogId => 108
  | .missingHostIds => 109
  | .generateId => 110
  | .checkConstraint => 1000
  | .notNull => 1001
  | .notUnique => 1002
  | .notSpecificIntegrity => 1003
  | .missingTable => 1004
  | .recordNotFound => 1100
  | .multipleRecords => 1101

/-- Modelled from the spec: the text of each Kind as it appears in error
strings; the Kind.String implementation is not in the excerpt.  "unknown"
(Other) and "integrity violation" (Integrity) are pinned by the expected
strings in TestError_Error and TestConvertError. -/
def kindString : Kind → String
  | .other => "unknown"
  | .parameter => "parameter violation"
  | .integrity => "integrity violation"
  | .search => "search issue"

/-- A Go error value as the excerpt observes it: a domain `*errors.Err`
(with or without a wrapped cause, split into two constructors so that
equality is decidable), a foreign error (stderrors.New and the like), or
a raw store-driver error carrying its SQLSTATE (`*pq.Error`). -/
inductive GoErr where
  | domain (code : Code) (errorId : String) (msg : String)
  | wrapD (code : Code) (errorId : String) (msg : String) (inner : GoErr)
  | foreign (msg : String)
  | pqe (sqlState : String) (msg : String)
deriving DecidableEq, Repr

/-- Equality of collaborator results is decidable (Go compares errors
and results structurally in its tests). -/
instance instDecEqExcept {ε α : Type} [DecidableEq ε] [DecidableEq α] :
    DecidableEq (Except ε α) := fun a b =>
  match a, b with
  | .error x, .error y =>
    if h : x = y then .isTrue (by rw [h]) else .isFalse (by simp [h])
  | .error _, .ok _ => .isFalse (by simp)
  | .ok _, .error _ => .isFalse (by simp)
  | .ok x, .ok y =>
    if h : x = y then .isTrue (by rw [h]) else .isFalse (by simp [h])

/-- Build an `Err` from code, id, optional message and optional wrapped
cause (the two domain constructors reunited). -/
def mkErr (code : Code) (errorId : String) (msg : String) : Option GoErr → GoErr
  | none => .domain code errorId msg
  | some inner => .wrapD code errorId msg inner

/-- Modelled from the spec: `New(code, id, ...options)` constructs an
error carrying code, an opaque site id, and optional message/wrap (§4.1);
the constructor body is not in the excerpt and is pinned by Test_NewError:
missing options leave `Msg` empty and `Wrapped` nil. -/
def newE (code : Code) (errorId : String) (withMsg : Option String)
    (withWrap : Option GoErr) : GoErr :=
  mkErr code errorId (withMsg.getD "") withWrap

/-- The code carried by an error: the outermost domain code, or Unknown
for a foreign/driver error. -/
def errCodeOf : GoErr → Code
  | .domain c _ _ => c
  | .wrapD c _ _ _ => c
  | .foreign _ => .unknown
  | .pqe _ _ => .unknown

/-- Modelled from the spec: `Wrap(err, id, ...options)` preserves a domain
error's code and chains it as Wrapped, overriding the message only when
supplied; a foreign error is wrapped with code Unknown (§4.1).  Pinned by
Test_WrapError, including that a conflicting WithWrap option is ignored. -/
def wrapE (e : GoErr) (errorId : String) (withMsg : Option String) : GoErr :=
  .wrapD (errCodeOf e) errorId (withMsg.getD "") e

/-- The `Is` walk over the error chain: identity of the target against
the error itself or any wrapped cause (spec §4.1: structural equality
over the chain, never message matching). -/
def isErr : GoErr → GoErr → Bool
  | e@(.wrapD _ _ _ inner), target => e == target || isErr inner target
  | e, target => e == target

/-- Whether some error in the chain carries the given domain code. -/
def chainHasCode : GoErr → Code → Bool
  | .domain c _ _, target => c == target
  | .wrapD c _ _ inner, target => c == target || chainHasCode inner target
  | .foreign _, _ => false
  | .pqe _ _, _ => false

/-- Modelled from the spec: the `ErrNotUnique` sentinel, a domain error
the unique-violation conversion wraps; its message "unique constraint
violation" is pinned by the expected Error string in TestConvertError. -/
def ErrNotUnique : GoErr := newE .notUnique "" (some "unique constraint violation") none

/-- Modelled from the spec: the `ErrNotNull` sentinel; message pinned by
TestConvertError ("not null constraint violated"). -/
def ErrNotNull : GoErr := newE .notNull "" (some "not null constraint violated") none

/-- Modelled from the spec: the `ErrCheckConstraint` sentinel; message
pinned by TestConvertError ("check constraint violated"). -/
def ErrCheckConstraint : GoErr := newE .checkConstraint "" (some "check constraint violated") none

/-- Modelled from the spec: the `ErrRecordNotFound` sentinel the Reader
reports for a missing row ("record not found" per the registry). -/
def ErrRecordNotFound : GoErr := newE .recordNotFound "" (some "record not found") none

/-- Modelled from the spec: the `ErrInvalidParameter` sentinel used in
TestError_Unwrap. -/
def ErrInvalidParameter : GoErr := newE .invalidParameter "" (some "invalid parameter") none

/-- strings.Join with a separator, as the Error method uses it. -/
def goJoin (sep : String) : List String → String
  | [] => ""
  | [s] => s
  | s :: rest => s ++ sep ++ goJoin sep rest

/-- The parts of an error's own (unwrapped) rendering: the site id when
present, then the message (or the registry default message joined to the
kind text with ", " when no message was supplied) and the kind text, then
"error #N". -/
def selfParts (code : Code) (errorId : String) (msg : String) : List String :=
  (if errorId = "" then [] else [errorId]) ++
  (if msg = "" then
    [(errorCodeInfo code).message ++ ", " ++ kindString (errorCodeInfo code).kind]
  else
    [msg, kindString (errorCodeInfo code).kind]) ++
  ["error #" ++ toString (codeNum code)]

/-- Modelled from the spec: the `Err.Error()` rendering (§4.1's
deterministic format); the method body is not in the excerpt.  It joins
the parts with ": " and, when a cause is wrapped, appends its rendering
after ": \n" — exactly reproducing every expected string of
TestError_Error and TestConvertError. -/
def errString : GoErr → String
  | .domain c i m => goJoin ": " (selfParts c i m)
  | .wrapD c i m inner => goJoin ": " (selfParts c i m ++ ["\n" ++ errString inner])
  | .foreign m => m
  | .pqe _ m => m

/-- Error() on a possibly-nil receiver: the nil *Err renders as "". -/
def errStringOpt : Option GoErr → String
  | none => ""
  | some e => errString e

/-- The error-string format exactly as the spec words it:
"[id: ][msg: ]kindText[, subtext]: error #code" — an optional "id: "
segment, then either the supplied message followed by the kind text or
(with no message) the registry default message with the kind text as a
comma subtext, then ": error #N".  Written from the spec's words for
comparison with `errString`, which is written from the implementation
side. -/
def specErrorStringFormat (code : Code) (errorId : String) (msg : String) : String :=
  (if errorId = "" then "" else errorId ++ ": ") ++
  (if msg = "" then
    (errorCodeInfo code).message ++ ", " ++ kindString (errorCodeInfo code).kind
  else
    msg ++ ": " ++ kindString (errorCodeInfo code).kind) ++
  ": " ++ ("error #" ++ toString (codeNum code))

/-- Modelled from the spec: `Convert(storeErr, id)` inspects a raw store
driver error and maps the known constraint-violation classes by SQLSTATE
(unique 23505, not-null 23502, check 23514, missing relation 42P01, any
other class-23 state to NotSpecificIntegrity), returning nil for
anything else (§4.1); the function body is not in the excerpt.  The
shapes of the produced errors are pinned by TestConvertError: unique /
not-null / check conversions carry the driver detail as message and wrap
the corresponding sentinel. -/
def Convert (e : Option GoErr) (errorId : String) : Option GoErr :=
  match e with
  | none => none
  | some err =>
    match err with
    | .pqe sqlState msg =>
      if sqlState = "23505" then
        some (.wrapD .notUnique errorId msg ErrNotUnique)
      else if sqlState = "23502" then
        some (.wrapD .notNull errorId msg ErrNotNull)
      else if sqlState = "23514" then
        some (.wrapD .checkConstraint errorId msg ErrCheckConstraint)
      else if sqlState = "42P01" then
        some (.domain .missingTable errorId msg)
      else if sqlState.take 2 = "23" then
        some (.domain .notSpecificIntegrity errorId "")
      else none
    | _ => none

/-- A field-level detail of a wire error response. -/
structure FieldError where
  name : String
  description : String
deriving DecidableEq, Repr

/-- The Details member of the wire error shape: request-field details and
the opaque correlation id. -/
structure ErrorDetails where
  requestFields : List FieldError
  errorIdDetail : String
deriving DecidableEq, Repr

/-- The stable client-facing wire error shape
`{Status, Code, Message, Details}` (spec §6). -/
structure ApiError where
  status : Nat
  code : String
  message : String
  details : ErrorDetails
deriving DecidableEq, Repr

/-- Modelled from the spec: the fixed generic uniqueness message the
handler uses for NotUnique (§4.2 names it but the constant's text is not
in the excerpt; the test references it as `genericUniquenessMsg`).  Its
exact text is irrelevant to the claims, which reference this constant. -/
def genericUniquenessMsg : String :=
  "Invalid request.  Request attempted to make second resource with the same field value that must be unique."

/-- Modelled from the spec: the fixed generic not-found message the
handler uses for RecordNotFound (the test references it as
`genericNotFoundMsg`). -/
def genericNotFoundMsg : String := "Unable to find requested resource."

/-- Modelled from the spec: the domain-error branch of the API Error
Handler mapping (§4.2 items 5 and 6); the handler body is not in the
excerpt, only TestApiErrorHandler.  `genErrorId` stands for the opaque
correlation id the handler generates on the 500 branch.  Branching is on
the error's code alone: InvalidFieldMask/EmptyFieldMask to 400 with the
fixed message and an update_mask field detail, NotUnique to 400 with the
generic uniqueness message, RecordNotFound to 404 with the generic
not-found message, and every other code (and every foreign error) to 500
Internal with no message and the correlation id in Details. -/
def apiErrorForDomain (e : GoErr) (genErrorId : String) : ApiError :=
  let c := errCodeOf e
  if c = .invalidFieldMask ∨ c = .emptyFieldMask then
    ⟨400, "InvalidArgument", "Error in provided request",
      ⟨[⟨"update_mask", "Invalid update mask provided."⟩], ""⟩⟩
  else if c = .notUnique then
    ⟨400, "InvalidArgument", genericUniquenessMsg, ⟨[], ""⟩⟩
  else if c = .recordNotFound then
    ⟨404, "NotFound", genericNotFoundMsg, ⟨[], ""⟩⟩
  else
    ⟨500, "Internal", "", ⟨[], genErrorId⟩⟩

/-
  The static host domain: data model and collaborator environment.
-/

/-- A static host row (internal/host/static, store.Host): public id,
immutable catalog id, optional name/description, required address. -/
structure Host where
  publicId : String
  catalogId : String
  name : String
  description : String
  address : String
deriving DecidableEq, Repr

/-- A static host catalog row: public id, immutable scope id, optional
name/description. -/
structure HostCatalog where
  publicId : String
  scopeId : String
  name : String
  description : String
deriving DecidableEq, Repr

/-- A host set referenced by the membership operations: only its public
id and the caller-supplied version matter here
(`newHostSetForMembers(setId, version)`). -/
structure HostSet where
  publicId : String
  version : Nat
deriving DecidableEq, Repr

/-- The pure join entity `HostSetMember` (SetId, HostId). -/
structure HostSetMember where
  setId : String
  hostId : String
deriving DecidableEq, Repr

/-- One row of the set-changes query: `{HostId, Action in {add, delete}}`
(the `change` struct in repository_host_set_member.go). -/
structure Change where
  action : String
  hostId : String
deriving DecidableEq, Repr

/-- PublicId prefixes from public_ids.go: HostCatalogPrefix "hcst",
HostSetPrefix "hsst", HostPrefix "hst". -/
def hostCatalogPfx : String := "hcst"

/-- HostSetPrefix from public_ids.go. -/
def hostSetPfx : String := "hsst"

/-- HostPrefix from public_ids.go. -/
def hostPfx : String := "hst"

/-- strings.TrimSpace, written List-based so that concrete executions
reduce in the kernel (Go also trims non-ASCII unicode space; the inputs
in this development are ASCII). -/
def goTrimSpace (s : String) : String :=
  ⟨((s.data.dropWhile Char.isWhitespace).reverse.dropWhile Char.isWhitespace).reverse⟩

/-- ASCII lower-casing of one character (strings.EqualFold on the ASCII
field names the repositories compare). -/
def charLowerGo (c : Char) : Char :=
  if 65 ≤ c.toNat ∧ c.toNat ≤ 90 then Char.ofNat (c.toNat + 32) else c

/-- ASCII lower-casing, used to model strings.EqualFold as equality of
lower-cased strings. -/
def toLowerGo (s : String) : String := ⟨s.data.map charLowerGo⟩

/-- strings.HasPrefix, written List-based so that concrete executions
reduce in the kernel. -/
def startsWithGo (s pre : String) : Bool := pre.data.isPrefixOf s.data

/-- OpType_OP_TYPE_CREATE.String(), the tag recorded in oplog metadata. -/
def opCreate : String := "OP_TYPE_CREATE"

/-- OpType_OP_TYPE_UPDATE.String(). -/
def opUpdate : String := "OP_TYPE_UPDATE"

/-- OpType_OP_TYPE_DELETE.String(). -/
def opDelete : String := "OP_TYPE_DELETE"

/-- Oplog entry metadata: the resource marker and the op-type tag list
(spec §4.3 "resource type marker + one or more operation-type tags").
Only the op-type list is mutated by the operations in the excerpt. -/
structure Metadata where
  resourcePublicId : String
  opTypes : List String
deriving DecidableEq, Repr

/-- Modelled from the spec: `set.oplog(opType)` assembles the set's oplog
metadata with its public id and the single initial op-type tag (the
HostSet.oplog method is not in the excerpt; §4.3). -/
def hostSetOplogMeta (setId : String) (opType : String) : Metadata :=
  ⟨setId, [opType]⟩

/-- One observable collaborator call performed by a repository
operation, in execution order.  getWrapper is the KMS wrapper
resolution; txBegin/txCommit/txRollback delimit the managed transaction
attempts of DoTx; genId is `db.NewPublicId`; the rest are store calls.
writeOplog records the metadata op-type tag list and the number of
mutation messages sealed into the entry. -/
inductive Event where
  | getWrapper (scopeId : String)
  | txBegin
  | txCommit
  | txRollback
  | genId
  | createRow
  | updateRow
  | deleteRow
  | createItems (n : Nat)
  | deleteItems (n : Nat)
  | getTicket
  | writeOplog (opTypes : List String) (msgs : Nat)
  | searchWhere
  | query
  | lookup
deriving DecidableEq, Repr

/-- The outcomes of the external collaborators (store, KMS, id
generator) for one repository call: the spec treats these as external
capability interfaces, so each call site's result is an input here.
Outcomes are constant across transaction retry attempts. -/
structure Env where
  /-- does `kms.GetWrapper(ctx, scopeId, KeyPurposeOplog)` succeed -/
  getWrapperOk : Bool
  /-- the id `db.NewPublicId` would return -/
  newId : String
  /-- does `db.NewPublicId` succeed -/
  newIdOk : Bool
  /-- result of `w.Create` (single row with coupled oplog) -/
  createErr : Option GoErr
  /-- result of `w.CreateItems` -/
  createItemsErr : Option GoErr
  /-- result of `w.DeleteItems`: rows deleted, or an error -/
  deleteItemsRows : Except GoErr Nat
  /-- result of `w.Update` under WithVersion: rows affected, or an error -/
  updateRows : Except GoErr Nat
  /-- result of `w.Delete`: rows affected, or an error -/
  deleteRows : Except GoErr Nat
  /-- result of `w.GetTicket` -/
  getTicketErr : Option GoErr
  /-- result of `w.WriteOplogEntryWith` -/
  writeOplogErr : Option GoErr
  /-- result of `reader.SearchWhere` for the set's hosts -/
  searchHosts : Except GoErr (List Host)
  /-- result of the set-changes query (`r.changes`) -/
  changesRows : Except GoErr (List Change)
  /-- result of `reader.LookupByPublicId` (none means the row was found) -/
  lookupErr : Option GoErr
  /-- the host row a successful lookup fills in -/
  hostRow : Host
  /-- the catalog row a successful lookup fills in -/
  catalogRow : HostCatalog
  /-- is a transaction-body failure of the transient/serialization class
  that DoTx retries -/
  retryable : Bool
deriving Repr

/-- The error `kms.GetWrapper` surfaces when it fails (an external,
foreign error). -/
def kmsWrapperErr : GoErr := .foreign "unable to get wrapper from kms"

/-- db.StdRetryCnt, the fixed retry budget handed to DoTx (external
constant; its exact value is irrelevant to the claims). -/
def stdRetryCnt : Nat := 20

/-- The trace of one transaction attempt: begin, the body's store calls,
then commit or rollback. -/
def txAttemptTrace (bodyTrace : List Event) (failed : Bool) : List Event :=
  Event.txBegin :: bodyTrace ++ [if failed then Event.txRollback else Event.txCommit]

/-- `DoTx(ctx, retries, backoff, body)`: runs the body in a transaction;
on success commits; on failure rolls back and, when the failure is of
the retryable class, re-executes the whole body up to the retry budget
(spec §4.3).  Collaborator outcomes are constant across attempts here,
so a retryable failure exhausts the budget. -/
def DoTx (retries : Nat) (bodyErr : Option GoErr) (bodyTrace : List Event)
    (retryable : Bool) : Option GoErr × List Event :=
  match bodyErr with
  | none => (none, txAttemptTrace bodyTrace false)
  | some e =>
    if retryable then
      (some e, (List.replicate (retries + 1) (txAttemptTrace bodyTrace true)).flatten)
    else
      (some e, txAttemptTrace bodyTrace true)

/-- Modelled from the spec: `NewHostSetMember(setId, hostId)` builds the
join entity, failing on a missing id (the constructor's file is not in
the excerpt; the member operations rely only on non-empty ids
succeeding). -/
def NewHostSetMember (setId hostId : String) : Except GoErr HostSetMember :=
  if setId = "" then .error (newE .missingSetId "newHostSetMemberSet" none none)
  else if hostId = "" then .error (newE .invalidParameter "newHostSetMemberHost" none none)
  else .ok ⟨setId, hostId⟩

/-- `r.newMembers(setId, hostIds)`: build the in-memory members,
wrapping the first constructor failure with site id "jU4QdTRAbt". -/
def newMembersGo (setId : String) : List String → Except GoErr (List HostSetMember)
  | [] => .ok []
  | id :: rest =>
    match NewHostSetMember setId id with
    | .error e => .error (wrapE e "jU4QdTRAbt" none)
    | .ok m =>
      match newMembersGo setId rest with
      | .error e => .error e
      | .ok ms => .ok (m :: ms)

/-- `createMembers`: `w.CreateItems` with oplog messages collected; on
success one message per member; failure wrapped with
"unable to create host set members" (site "jgSkkXY7xw"). -/
def createMembers (env : Env) (members : List HostSetMember) :
    Except GoErr Nat × List Event :=
  match env.createItemsErr with
  | some e =>
    (.error (wrapE e "jgSkkXY7xw" (some "unable to create host set members")),
      [.createItems members.length])
  | none => (.ok members.length, [.createItems members.length])

/-- `deleteMembers`: `w.DeleteItems` with oplog messages collected; a
driver failure is wrapped (site "MawizmQmuJ"), and a row count different
from the request is an Unknown error (site "fL6mFtv0m2"). -/
def deleteMembers (env : Env) (members : List HostSetMember) :
    Except GoErr Nat × List Event :=
  match env.deleteItemsRows with
  | .error e => (.error (wrapE e "MawizmQmuJ" none), [.deleteItems members.length])
  | .ok rows =>
    if rows ≠ members.length then
      (.error (newE .unknown "fL6mFtv0m2"
        (some ("set members deleted " ++ toString rows ++
          " did not match request for " ++ toString members.length)) none),
        [.deleteItems members.length])
    else
      (.ok members.length, [.deleteItems members.length])

/-- `updateVersion`: update the set's version row under WithVersion,
treating more than one affected row as MultipleRecords (site
"t0nw1GFJ4v"); then append the set message, get the oplog ticket and
write the oplog entry with the accumulated messages. -/
def updateVersion (env : Env) (metadata : Metadata) (msgs : Nat) :
    Option GoErr × List Event :=
  match env.updateRows with
  | .error e =>
    (some (wrapE e "dPPD3sxiTJ" (some "unable to update host set version")), [.updateRow])
  | .ok rowsUpdated =>
    if 1 < rowsUpdated then
      (some (newE .multipleRecords "t0nw1GFJ4v" none none), [.updateRow])
    else
      match env.getTicketErr with
      | some e =>
        (some (wrapE e "73n9TZE5kb" (some "unable to get ticket")), [.updateRow, .getTicket])
      | none =>
        match env.writeOplogErr with
        | some e =>
          (some (wrapE e "wu4SnDa0Ab" (some "unable to write oplog")),
            [.updateRow, .getTicket, .writeOplog metadata.opTypes (msgs + 1)])
        | none =>
          (none, [.updateRow, .getTicket, .writeOplog metadata.opTypes (msgs + 1)])

/-- `getHosts(reader, setId, unlimited)`: SearchWhere for the set's
hosts (an empty result is returned as the empty list, as Go's nil
slice). -/
def getHosts (env : Env) : Except GoErr (List Host) × List Event :=
  match env.searchHosts with
  | .error e => (.error (wrapE e "5WNsz8rI9K" none), [.searchWhere])
  | .ok hosts => (.ok hosts, [.searchWhere])

/-- The AddSetMembers transaction closure: create the members, update
the set's version (which also writes the one oplog entry with the
accumulated messages), then read the full membership back. -/
def addSetMembersTx (env : Env) (setId : String) (members : List HostSetMember) :
    Option GoErr × List Host × List Event :=
  let metadata := hostSetOplogMeta setId opCreate
  let c := createMembers env members
  match c.1 with
  | .error e => (some e, [], c.2)
  | .ok msgs =>
    let u := updateVersion env metadata msgs
    match u.1 with
    | some e => (some e, [], c.2 ++ u.2)
    | none =>
      let g := getHosts env
      match g.1 with
      | .error e => (some e, [], c.2 ++ u.2 ++ g.2)
      | .ok hosts => (none, hosts, c.2 ++ u.2 ++ g.2)

/-- `Repository.AddSetMembers(ctx, scopeId, setId, version, hostIds)`:
validate inputs, build the in-memory members, resolve the oplog
wrapper, then run the transaction and return all hosts in the set. -/
def AddSetMembers (env : Env) (scopeId setId : String) (version : Nat)
    (hostIds : List String) : Except GoErr (List Host) × List Event :=
  if scopeId = "" then (.error (newE .missingScopeId "xymycsueQZ" none none), [])
  else if setId = "" then (.error (newE .missingSetId "bnxBOpC9ko" none none), [])
  else if version = 0 then (.error (newE .missingVersion "9n49kDCsYS" none none), [])
  else if hostIds = [] then (.error (newE .missingHostIds "lIT0VcwEBL" none none), [])
  else
    match newMembersGo setId hostIds with
    | .error e => (.error (wrapE e "9wyDoHpInL" none), [])
    | .ok members =>
      if env.getWrapperOk then
        let b := addSetMembersTx env setId members
        let d := DoTx stdRetryCnt b.1 b.2.2 env.retryable
        match d.1 with
        | some e => (.error (wrapE e "0GujNHKBfu" none), .getWrapper scopeId :: d.2)
        | none => (.ok b.2.1, .getWrapper scopeId :: d.2)
      else
        (.error (wrapE kmsWrapperErr "i5zaqevLYX" (some "unable to get oplog wrapper")),
          [.getWrapper scopeId])

/-- The DeleteSetMembers transaction closure: delete the members, then
update the set's version and write the oplog entry. -/
def deleteSetMembersTx (env : Env) (setId : String) (members : List HostSetMember) :
    Option GoErr × List Event :=
  let metadata := hostSetOplogMeta setId opDelete
  let d := deleteMembers env members
  match d.1 with
  | .error e => (some e, d.2)
  | .ok msgs =>
    let u := updateVersion env metadata msgs
    (u.1, d.2 ++ u.2)

/-- `Repository.DeleteSetMembers(ctx, scopeId, setId, version, hostIds)`:
validate inputs, build the members, resolve the oplog wrapper, run the
transaction, and return how many hosts were deleted. -/
def DeleteSetMembers (env : Env) (scopeId setId : String) (version : Nat)
    (hostIds : List String) : Except GoErr Nat × List Event :=
  if scopeId = "" then (.error (newE .missingScopeId "KGgpz1d72e" none none), [])
  else if setId = "" then (.error (newE .missingSetId "NPD70tsHdL" none none), [])
  else if version = 0 then (.error (newE .missingVersion "fyq9s5qJG7" none none), [])
  else if hostIds = [] then (.error (newE .missingHostIds "h9TdzKEJu3" none none), [])
  else
    match newMembersGo setId hostIds with
    | .error e => (.error (wrapE e "VaQ5mV5YrS" none), [])
    | .ok members =>
      if env.getWrapperOk then
        let b := deleteSetMembersTx env setId members
        let d := DoTx stdRetryCnt b.1 b.2 env.retryable
        match d.1 with
        | some e => (.error (wrapE e "QV3S4qnM6n" none), .getWrapper scopeId :: d.2)
        | none => (.ok hostIds.length, .getWrapper scopeId :: d.2)
      else
        (.error (wrapE kmsWrapperErr "hCBG0NrKWo" (some "unable to get oplog wrapper")),
          [.getWrapper scopeId])

/-- The change-partition loop of SetSetMembers: each change row becomes
an in-memory member (constructor failures wrapped at site "iH0OM9GWsU"),
put into the deletions or the additions per its Action; rows with any
other action are dropped. -/
def partitionChanges (setId : String) : List Change →
    Except GoErr (List HostSetMember × List HostSetMember)
  | [] => .ok ([], [])
  | c :: rest =>
    match NewHostSetMember setId c.hostId with
    | .error e => .error (wrapE e "iH0OM9GWsU" none)
    | .ok m =>
      match partitionChanges setId rest with
      | .error e => .error e
      | .ok (dels, adds) =>
        if c.action = "delete" then .ok (m :: dels, adds)
        else if c.action = "add" then .ok (dels, m :: adds)
        else .ok (dels, adds)

/-- The tail of the SetSetMembers transaction closure: update the set's
version, write the one oplog entry carrying the accumulated op-type tags
and messages, then read the membership back. -/
def setMembersFinish (env : Env) (setId : String) (tags : List String) (msgs : Nat)
    (pre : List Event) : Option GoErr × List Host × List Event :=
  let u := updateVersion env ⟨setId, tags⟩ msgs
  match u.1 with
  | some e => (some e, [], pre ++ u.2)
  | none =>
    let g := getHosts env
    match g.1 with
    | .error e => (some e, [], pre ++ u.2 ++ g.2)
    | .ok hosts => (none, hosts, pre ++ u.2 ++ g.2)

/-- The SetSetMembers transaction closure: starting from the UPDATE
op-type tag of the set's metadata, delete the deletions (appending the
DELETE tag) when there are any, create the additions (appending the
CREATE tag) when there are any, then update the version, write the one
oplog entry and read the membership back. -/
def setSetMembersTx (env : Env) (setId : String)
    (deletions additions : List HostSetMember) : Option GoErr × List Host × List Event :=
  if deletions = [] then
    if additions = [] then
      setMembersFinish env setId [opUpdate] 0 []
    else
      let c := createMembers env additions
      match c.1 with
      | .error e => (some e, [], c.2)
      | .ok cm => setMembersFinish env setId ([opUpdate] ++ [opCreate]) cm c.2
  else
    let d := deleteMembers env deletions
    match d.1 with
    | .error e => (some e, [], d.2)
    | .ok dm =>
      if additions = [] then
        setMembersFinish env setId ([opUpdate] ++ [opDelete]) dm d.2
      else
        let c := createMembers env additions
        match c.1 with
        | .error e => (some e, [], d.2 ++ c.2)
        | .ok cm =>
          setMembersFinish env setId ([opUpdate] ++ [opDelete] ++ [opCreate]) (dm + cm)
            (d.2 ++ c.2)

/-- `Repository.SetSetMembers(ctx, scopeId, setId, version, hostIds)`:
validate inputs, let the store compute the change set, partition it
into deletions and additions, and when the delta is non-empty resolve
the wrapper and run the transaction; the result is the `hosts` variable
(only ever assigned inside the transaction closure) and the number of
changed rows. -/
def SetSetMembers (env : Env) (scopeId setId : String) (version : Nat)
    (hostIds : List String) : Except GoErr (List Host × Nat) × List Event :=
  if scopeId = "" then (.error (newE .missingScopeId "f586g3Ou3N" none none), [])
  else if setId = "" then (.error (newE .missingSetId "ovPimJEOGi" none none), [])
  else if version = 0 then (.error (newE .missingVersion "eK5fZS45A7" none none), [])
  else
    match env.changesRows with
    | .error e => (.error (wrapE e "YPPZGU8VYl" none), [.query])
    | .ok changes =>
      match partitionChanges setId changes with
      | .error e => (.error e, [.query])
      | .ok (deletions, additions) =>
        if 0 < changes.length then
          if env.getWrapperOk then
            let b := setSetMembersTx env setId deletions additions
            let d := DoTx stdRetryCnt b.1 b.2.2 env.retryable
            match d.1 with
            | some e =>
              (.error (wrapE e "589FNyTVpZ" none), .query :: .getWrapper scopeId :: d.2)
            | none =>
              (.ok (b.2.1, changes.length), .query :: .getWrapper scopeId :: d.2)
          else
            (.error (wrapE kmsWrapperErr "UiK7ghaifD" (some "unable to get oplog wrapper")),
              [.query, .getWrapper scopeId])
        else
          (.ok ([], changes.length), [.query])

/-- Modelled from the spec: MinHostAddressLength (the address is a
"required, length-bounded string"; the constant is not in the excerpt
and its value does not affect any claim). -/
def minHostAddressLength : Nat := 3

/-- Modelled from the spec: MaxHostAddressLength. -/
def maxHostAddressLength : Nat := 255

/-- The transaction closure of CreateHost and CreateCatalog: a single
`w.Create` with the coupled oplog entry (WithOplog). -/
def createRowTx (env : Env) : Option GoErr × List Event :=
  match env.createErr with
  | some e => (some e, [.createRow])
  | none => (none, [.createRow])

/-- The tail of CreateHost after the public id is settled: resolve the
oplog wrapper, run the create transaction, and classify a failure via
Convert, falling back to a generic Unknown error carrying the catalog id
and name. -/
def createHostFinish (env : Env) (scopeId : String) (h : Host) (pre : List Event) :
    Except GoErr Host × List Event :=
  if env.getWrapperOk then
    let b := createRowTx env
    let d := DoTx stdRetryCnt b.1 b.2 env.retryable
    match d.1 with
    | some e =>
      match Convert (some e) "yyg1sVUuzo" with
      | some dErr => (.error dErr, pre ++ .getWrapper scopeId :: d.2)
      | none =>
        (.error (newE .unknown "mEN8tF6Zbr"
          (some ("catalog: " ++ h.catalogId ++ ": \"" ++ h.name ++ "\"")) (some e)),
          pre ++ .getWrapper scopeId :: d.2)
    | none => (.ok h, pre ++ .getWrapper scopeId :: d.2)
  else
    (.error (wrapE kmsWrapperErr "7RQyYaqQX2" (some "unable to get oplog wrapper")),
      pre ++ [.getWrapper scopeId])

/-- `Repository.CreateHost(ctx, scopeId, h, opt...)`: validate, trim and
bound the address, take the caller-supplied public id when its prefix is
"hst_" (otherwise InvalidParameter) or generate one, then create inside
a transaction with the coupled oplog entry.  The nil-embedded-store-host
check of the source has no counterpart on this flat structure and is
elided. -/
def CreateHost (env : Env) (scopeId : String) (h : Option Host)
    (withPublicId : Option String) : Except GoErr Host × List Event :=
  match h with
  | none => (.error (newE .invalidParameter "Uk0vJrn5BP" (some "no static host") none), [])
  | some host =>
    if host.catalogId = "" then (.error (newE .missingCatalogId "afNPD3klN6" none none), [])
    else if host.publicId ≠ "" then
      (.error (newE .invalidParameter "KGaXoHSCDQ" (some "public id not empty") none), [])
    else if scopeId = "" then (.error (newE .missingScopeId "IWwJEBJpMS" none none), [])
    else
      let addr := goTrimSpace host.address
      if addr.length < minHostAddressLength ∨ maxHostAddressLength < addr.length then
        (.error (newE .invalidAddress "oTmHplf1VJ" none none), [])
      else
        match withPublicId with
        | some pid =>
          if startsWithGo pid (hostPfx ++ "_") then
            createHostFinish env scopeId { host with address := addr, publicId := pid } []
          else
            (.error (newE .invalidParameter "fVA68Amp1G"
              (some ("passed-in public ID \"" ++ pid ++ "\" has wrong prefix, should be \"" ++
                hostPfx ++ "\"")) none), [])
        | none =>
          if env.newIdOk then
            createHostFinish env scopeId { host with address := addr, publicId := env.newId }
              [.genId]
          else
            (.error (wrapE (wrapE (.foreign "unable to generate id") "cEZRb7Qm20" none)
              "6wPMpwqf8k" none), [.genId])

/-- The field-mask validation loop of UpdateHost: Name and Description
pass through, Address is trimmed and bounds-checked in place, anything
else is an InvalidFieldMask error (site "SNgxP6ngNk"); matching is
case-insensitive (strings.EqualFold). -/
def updateHostMaskLoop (h : Host) : List String → Except GoErr Host
  | [] => .ok h
  | f :: rest =>
    if toLowerGo f = "name" then updateHostMaskLoop h rest
    else if toLowerGo f = "description" then updateHostMaskLoop h rest
    else if toLowerGo f = "address" then
      let addr := goTrimSpace h.address
      if addr.length < minHostAddressLength ∨ maxHostAddressLength < addr.length then
        .error (newE .invalidAddress "YyAgOFKnTL" none none)
      else updateHostMaskLoop { h with address := addr } rest
    else .error (newE .invalidFieldMask "SNgxP6ngNk" (some ("invalid field mask: " ++ f)) none)

/-- Modelled from the spec: `dbcommon.BuildUpdatePaths` — of the masked
fields, those with a non-zero value go to the db mask and those with a
zero value to the null-fields list (§9 "Dynamic field-mask update"; the
helper's source is not in the excerpt). -/
def buildUpdatePaths (h : Host) (fieldMaskPaths : List String) :
    List String × List String :=
  let pick := fun (goName : String) (value : String) =>
    if fieldMaskPaths.any (fun f => toLowerGo f = toLowerGo goName) then
      if value ≠ "" then ([goName], ([] : List String)) else ([], [goName])
    else ([], [])
  let n := pick "Name" h.name
  let d := pick "Description" h.description
  let a := pick "Address" h.address
  (n.1 ++ d.1 ++ a.1, n.2 ++ d.2 ++ a.2)

/-- The UpdateHost transaction closure: `w.Update` under WithVersion
with the coupled oplog entry; more than one affected row is a
MultipleRecords error (site "xJBYJRMXXe").  Also returns the affected
row count the closure captures. -/
def updateHostTx (env : Env) : Option GoErr × Nat × List Event :=
  match env.updateRows with
  | .error e => (some e, 0, [.updateRow])
  | .ok rowsUpdated =>
    if 1 < rowsUpdated then
      (some (newE .multipleRecords "xJBYJRMXXe" none none), rowsUpdated, [.updateRow])
    else (none, rowsUpdated, [.updateRow])

/-- `Repository.UpdateHost(ctx, scopeId, h, version, fieldMaskPaths)`:
validate, apply the field mask, resolve the wrapper, run the versioned
update transaction, and classify failures via Convert with an Unknown
fallback carrying the catalog id and name. -/
def UpdateHost (env : Env) (scopeId : String) (h : Option Host) (version : Nat)
    (fieldMaskPaths : List String) : Except GoErr (Host × Nat) × List Event :=
  match h with
  | none => (.error (newE .invalidParameter "h4qvnejlc5" (some "no static host") none), [])
  | some host =>
    if host.publicId = "" then (.error (newE .missingPublicId "Jb28DGty13" none none), [])
    else if version = 0 then (.error (newE .missingVersion "hvAqt1UJo6" none none), [])
    else if scopeId = "" then (.error (newE .missingScopeId "jqU4qoUlBv" none none), [])
    else
      match updateHostMaskLoop host fieldMaskPaths with
      | .error e => (.error e, [])
      | .ok host2 =>
        let masks := buildUpdatePaths host2 fieldMaskPaths
        if masks.1 = [] ∧ masks.2 = [] then
          (.error (newE .emptyFieldMask "CcCFJsoFzP" none none), [])
        else if env.getWrapperOk then
          let b := updateHostTx env
          let d := DoTx stdRetryCnt b.1 b.2.2 env.retryable
          match d.1 with
          | some e =>
            match Convert (some e) "dEmKLWCiWN" with
            | some dErr => (.error dErr, .getWrapper scopeId :: d.2)
            | none =>
              (.error (newE .unknown "Hap3HE7q12"
                (some ("catalog: " ++ host2.catalogId ++ ": \"" ++ host2.name ++ "\""))
                (some e)), .getWrapper scopeId :: d.2)
          | none => (.ok (host2, b.2.1), .getWrapper scopeId :: d.2)
        else
          (.error (wrapE kmsWrapperErr "kuAQInmfOm" (some "unable to get oplog wrapper")),
            [.getWrapper scopeId])

/-- The DeleteHost transaction closure: `w.Delete` with the coupled
oplog entry; more than one affected row is a MultipleRecords error (site
"F6r9DCCqM7"). -/
def deleteHostTx (env : Env) : Option GoErr × Nat × List Event :=
  match env.deleteRows with
  | .error e => (some e, 0, [.deleteRow])
  | .ok rows =>
    if 1 < rows then (some (newE .multipleRecords "F6r9DCCqM7" none none), rows, [.deleteRow])
    else (none, rows, [.deleteRow])

/-- `Repository.DeleteHost(ctx, scopeId, publicId)`: validate the id,
resolve the wrapper, run the delete transaction, and return the count of
deleted rows. -/
def DeleteHost (env : Env) (scopeId publicId : String) : Except GoErr Nat × List Event :=
  if publicId = "" then (.error (newE .missingPublicId "H4PoOJ95Tx" none none), [])
  else if env.getWrapperOk then
    let b := deleteHostTx env
    let d := DoTx stdRetryCnt b.1 b.2.2 env.retryable
    match d.1 with
    | some e =>
      (.error (wrapE e "R7CFLLqqYn" (some ("failed to delete " ++ publicId))),
        .getWrapper scopeId :: d.2)
    | none => (.ok b.2.1, .getWrapper scopeId :: d.2)
  else
    (.error (wrapE kmsWrapperErr "EUyTZNkicA" (some "unable to get oplog wrapper")),
      [.getWrapper scopeId])

/-- `Repository.LookupHost(ctx, publicId)`: a store record-not-found
sentinel yields (nil, nil); any other store error is returned wrapped
(site "Ljwlcf1AdE"); otherwise the filled-in host row. -/
def LookupHost (env : Env) (publicId : String) : Except GoErr (Option Host) × List Event :=
  if publicId = "" then (.error (newE .missingPublicId "I4MUUz0Ogf" none none), [])
  else
    match env.lookupErr with
    | some e =>
      if isErr e ErrRecordNotFound then (.ok none, [.lookup])
      else (.error (wrapE e "Ljwlcf1AdE" (some ("lookup failed for " ++ publicId))), [.lookup])
    | none => (.ok (some { env.hostRow with publicId := publicId }), [.lookup])

/-- The tail of CreateCatalog after the public id is settled: resolve
the wrapper for the catalog's own scope, run the create transaction, and
classify a failure via Convert with an Unknown fallback carrying the
scope id. -/
def createCatalogFinish (env : Env) (c : HostCatalog) (pre : List Event) :
    Except GoErr HostCatalog × List Event :=
  if env.getWrapperOk then
    let b := createRowTx env
    let d := DoTx stdRetryCnt b.1 b.2 env.retryable
    match d.1 with
    | some e =>
      match Convert (some e) "lpmawQlpci" with
      | some dErr => (.error dErr, pre ++ .getWrapper c.scopeId :: d.2)
      | none =>
        (.error (newE .unknown "YUNviuuTot" (some ("scope: " ++ c.scopeId)) (some e)),
          pre ++ .getWrapper c.scopeId :: d.2)
    | none => (.ok c, pre ++ .getWrapper c.scopeId :: d.2)
  else
    (.error (wrapE kmsWrapperErr "KeVVbWtJil" (some "unable to get oplog wrapper")),
      pre ++ [.getWrapper c.scopeId])

/-- `Repository.CreateCatalog(ctx, c, opt...)`: validate, take the
caller-supplied public id when its prefix is "hcst_" (otherwise
InvalidParameter) or generate one, then create inside a transaction with
the coupled oplog entry.  The nil-embedded-store-catalog check is elided
as in CreateHost. -/
def CreateCatalog (env : Env) (c : Option HostCatalog) (withPublicId : Option String) :
    Except GoErr HostCatalog × List Event :=
  match c with
  | none => (.error (newE .invalidParameter "WDqVaWow1I" (some "no static host catalog") none), [])
  | some cat =>
    if cat.scopeId = "" then (.error (newE .missingScopeId "9aEGoNhqim" none none), [])
    else if cat.publicId ≠ "" then
      (.error (newE .invalidParameter "UN8PyOHEzg" (some "public id not empty") none), [])
    else
      match withPublicId with
      | some pid =>
        if startsWithGo pid (hostCatalogPfx ++ "_") then
          createCatalogFinish env { cat with publicId := pid } []
        else
          (.error (newE .invalidParameter "o8KBnSVBtW"
            (some ("passed-in public ID \"" ++ pid ++ "\" has wrong prefix, should be \"" ++
              hostCatalogPfx ++ "\"")) none), [])
      | none =>
        if env.newIdOk then
          createCatalogFinish env { cat with publicId := env.newId } [.genId]
        else
          (.error (wrapE (wrapE (.foreign "unable to generate id") "1XSBSr2Zql" none)
            "FscgDjWH5d" none), [.genId])

/-- The field-mask loop of UpdateCatalog: name and description are
routed to the db mask or the null-fields list by whether their value is
empty; anything else is an InvalidFieldMask error (site "4UWfx3RKPW"). -/
def updateCatalogMaskLoop (c : HostCatalog) : List String →
    Except GoErr (List String × List String)
  | [] => .ok ([], [])
  | f :: rest =>
    let step : Except GoErr (List String × List String) :=
      if toLowerGo f = "name" then
        .ok (if c.name = "" then ([], ["name"]) else (["name"], []))
      else if toLowerGo f = "description" then
        .ok (if c.description = "" then ([], ["description"]) else (["description"], []))
      else .error (newE .invalidFieldMask "4UWfx3RKPW" (some ("invalid field mask: " ++ f)) none)
    match step with
    | .error e => .error e
    | .ok (db1, nf1) =>
      match updateCatalogMaskLoop c rest with
      | .error e => .error e
      | .ok (db2, nf2) => .ok (db1 ++ db2, nf1 ++ nf2)

/-- The UpdateCatalog transaction closure: `w.Update` under WithVersion
with the coupled oplog entry; more than one affected row is a
MultipleRecords error (site "obC7MjAGtj"). -/
def updateCatalogTx (env : Env) : Option GoErr × Nat × List Event :=
  match env.updateRows with
  | .error e => (some e, 0, [.updateRow])
  | .ok rowsUpdated =>
    if 1 < rowsUpdated then
      (some (newE .multipleRecords "obC7MjAGtj" none none), rowsUpdated, [.updateRow])
    else (none, rowsUpdated, [.updateRow])

/-- `Repository.UpdateCatalog(ctx, c, version, fieldMask)`: validate
(including a non-empty field mask before the mask loop), resolve the
wrapper for the catalog's scope, run the versioned update transaction,
and classify failures via Convert with an Unknown fallback. -/
def UpdateCatalog (env : Env) (c : Option HostCatalog) (version : Nat)
    (fieldMask : List String) : Except GoErr (HostCatalog × Nat) × List Event :=
  match c with
  | none =>
    (.error (newE .invalidParameter "trTNCCHQZn" (some "no static host catalog") none), [])
  | some cat =>
    if cat.publicId = "" then (.error (newE .missingPublicId "SVcfUXTCbG" none none), [])
    else if cat.scopeId = "" then (.error (newE .missingScopeId "KoTPLuElUe" none none), [])
    else if fieldMask = [] then (.error (newE .emptyFieldMask "W5HripLn8X" none none), [])
    else
      match updateCatalogMaskLoop cat fieldMask with
      | .error e => (.error e, [])
      | .ok _ =>
        if env.getWrapperOk then
          let b := updateCatalogTx env
          let d := DoTx stdRetryCnt b.1 b.2.2 env.retryable
          match d.1 with
          | some e =>
            match Convert (some e) "Ebzq6foarI" with
            | some dErr => (.error dErr, .getWrapper cat.scopeId :: d.2)
            | none =>
              (.error (newE .unknown "2mvrnq45Ap"
                (some ("static host catalog: " ++ cat.publicId)) (some e)),
                .getWrapper cat.scopeId :: d.2)
          | none => (.ok (cat, b.2.1), .getWrapper cat.scopeId :: d.2)
        else
          (.error (wrapE kmsWrapperErr "iHhp6zDi4t" (some "unable to get oplog wrapper")),
            [.getWrapper cat.scopeId])

/-- `Repository.LookupCatalog(ctx, id)`: a store record-not-found
sentinel yields (nil, nil); any other store error is returned wrapped
(site "rKb8JERpza"); otherwise the filled-in catalog row. -/
def LookupCatalog (env : Env) (id : String) : Except GoErr (Option HostCatalog) × List Event :=
  if id = "" then (.error (newE .missingPublicId "8krg5Lnj60" none none), [])
  else
    match env.lookupErr with
    | some e =>
      if isErr e ErrRecordNotFound then (.ok none, [.lookup])
      else (.error (wrapE e "rKb8JERpza" (some ("lookup failed for " ++ id))), [.lookup])
    | none => (.ok (some { env.catalogRow with publicId := id }), [.lookup])

/-- The DeleteCatalog transaction closure: `w.Delete` with the coupled
oplog entry; more than one affected row is a MultipleRecords error (site
"QOsAOsa7c1"). -/
def deleteCatalogTx (env : Env) : Option GoErr × Nat × List Event :=
  match env.deleteRows with
  | .error e => (some e, 0, [.deleteRow])
  | .ok rows =>
    if 1 < rows then (some (newE .multipleRecords "QOsAOsa7c1" none none), rows, [.deleteRow])
    else (none, rows, [.deleteRow])

/-- `Repository.DeleteCatalog(ctx, id)`: look the catalog up first (a
record-not-found sentinel yields (0, nil)), check its scope id, resolve
the wrapper for that scope, run the delete transaction and return the
count of deleted rows. -/
def DeleteCatalog (env : Env) (id : String) : Except GoErr Nat × List Event :=
  if id = "" then (.error (newE .missingPublicId "l25QwC2lJI" none none), [])
  else
    match env.lookupErr with
    | some e =>
      if isErr e ErrRecordNotFound then (.ok 0, [.lookup])
      else (.error (wrapE e "I7EbEefwta" (some ("failed to delete " ++ id))), [.lookup])
    | none =>
      let c := env.catalogRow
      if c.scopeId = "" then (.error (newE .missingScopeId "JwKurh9Laa" none none), [.lookup])
      else if env.getWrapperOk then
        let b := deleteCatalogTx env
        let d := DoTx stdRetryCnt b.1 b.2.2 env.retryable
        match d.1 with
        | some e =>
          (.error (wrapE e "sbH5pLPOM3" (some ("failed to delete " ++ c.publicId))),
            .lookup :: .getWrapper c.scopeId :: d.2)
        | none => (.ok b.2.1, .lookup :: .getWrapper c.scopeId :: d.2)
      else
        (.error (wrapE kmsWrapperErr "9nrh58aKQe" (some "unable to get oplog wrapper")),
          [.lookup, .getWrapper c.scopeId])

/-
  Trace observations used by the claims.
-/

/-- Does the trace contain a KMS wrapper resolution? -/
def hasGetWrapper : List Event → Bool
  | [] => false
  | .getWrapper _ :: _ => true
  | _ :: t => hasGetWrapper t

/-- How many KMS wrapper resolutions the trace contains. -/
def countGetWrapper : List Event → Nat
  | [] => 0
  | .getWrapper _ :: t => countGetWrapper t + 1
  | _ :: t => countGetWrapper t

/-- Does the trace contain a wrapper resolution that happens after some
transaction was opened (i.e. a wrapper resolved inside or after a
transaction body, rather than before any transaction)? -/
def wrapperAfterTxBegin : List Event → Bool
  | [] => false
  | .txBegin :: t => hasGetWrapper t
  | _ :: t => wrapperAfterTxBegin t

/-- Does the trace open any transaction? -/
def hasTxBegin : List Event → Bool
  | [] => false
  | .txBegin :: _ => true
  | _ :: t => hasTxBegin t

/-- Does the trace commit any transaction? -/
def hasTxCommit : List Event → Bool
  | [] => false
  | .txCommit :: _ => true
  | _ :: t => hasTxCommit t

/-- The op-type tag lists of the oplog entries written in the trace, in
order; its length is the number of oplog writes. -/
def writeOplogTagLists : List Event → List (List String)
  | [] => []
  | .writeOplog tags _ :: t => tags :: writeOplogTagLists t
  | _ :: t => writeOplogTagLists t

/-- The deletion members the SetSetMembers partition produces: one join
entity per change row whose Action is "delete", in order. -/
def changeDeletions (setId : String) (cs : List Change) : List HostSetMember :=
  (cs.filter (fun c => c.action = "delete")).map (fun c => ⟨setId, c.hostId⟩)

/-- The addition members the SetSetMembers partition produces: one join
entity per change row whose Action is "add", in order. -/
def changeAdditions (setId : String) (cs : List Change) : List HostSetMember :=
  (cs.filter (fun c => c.action = "add")).map (fun c => ⟨setId, c.hostId⟩)

/-
  Concrete rows and environments used as witnesses and counterexamples.
-/

/-- A concrete host row. -/
def host1 : Host := ⟨"hst_1", "hcst_1", "", "", "1.1.1.1"⟩

/-- A second concrete host row. -/
def host2 : Host := ⟨"hst_2", "hcst_1", "", "", "2.2.2.2"⟩

/-- A concrete catalog row. -/
def catalog1 : HostCatalog := ⟨"hcst_1", "scope1", "", ""⟩

/-- An environment in which every collaborator call succeeds, the store
reports one affected row everywhere, and the change set is empty. -/
def envBase : Env :=
  ⟨true, "hst_generated", true, none, none, .ok 1, .ok 1, .ok 1, none, none,
    .ok [], .ok [], none, host1, catalog1, false⟩

/-- envBase with a failing KMS wrapper resolution. -/
def envNoWrapper : Env := { envBase with getWrapperOk := false }

/-- envBase with a one-host membership reported by the store and an
empty change set: the store state for a SetSetMembers call whose target
already equals the membership. -/
def envC2 : Env := { envBase with searchHosts := .ok [host1] }

/-- envBase with a pure-addition change set (the set is empty, the
target adds one host) and the resulting membership. -/
def envC4 : Env :=
  { envBase with
    changesRows := .ok [⟨"add", "hst_2"⟩]
    searchHosts := .ok [host2]
    deleteItemsRows := .ok 0 }

/-- Does the trace contain a public-id generation? -/
def hasGenId : List Event → Bool
  | [] => false
  | .genId :: _ => true
  | _ :: t => hasGenId t

/-- envBase with the store lookup reporting the record-not-found
sentinel. -/
def envRnf : Env := { envBase with lookupErr := some ErrRecordNotFound }

/-- envBase with the store lookup failing with a foreign error. -/
def envLookupFail : Env := { envBase with lookupErr := some (.foreign "connection reset") }

/-- envBase with the store reporting two affected rows for updates and
deletes: the state a public-id-scoped mutation must never accept. -/
def envRows2 : Env := { envBase with updateRows := .ok 2, deleteRows := .ok 2 }

/-- envBase with `w.Create` failing with a foreign, unclassifiable
error. -/
def envCreateFail : Env := { envBase with createErr := some (.foreign "create failed") }

/-- envBase with `w.Create` failing with a unique-violation driver
error. -/
def envCreateDup : Env :=
  { envBase with createErr := some (.pqe "23505" "Key (name)=(a) already exists.") }

/-- envBase with `w.CreateItems` failing with a retryable
serialization-class error. -/
def envRetry : Env :=
  { envBase with createItemsErr := some (.foreign "serialization failure"), retryable := true }

/-- The wrapper-resolution discipline an operation's trace actually
obeys: no wrapper resolution ever happens after a transaction was
opened, at most one wrapper resolution happens per call (so transaction
retries do not re-resolve), and when the wrapper resolution fails no
transaction is opened at all. -/
def wrapperDiscipline (env : Env) (t : List Event) : Prop :=
  wrapperAfterTxBegin t = false ∧
  countGetWrapper t ≤ 1 ∧
  (env.getWrapperOk = false → hasTxBegin t = false)

/-
  Trace infrastructure lemmas.
-/

theorem hasGetWrapper_append (a b : List Event) :
    hasGetWrapper (a ++ b) = (hasGetWrapper a || hasGetWrapper b) := by
  induction a with
  | nil => simp [hasGetWrapper]
  | cons e t ih => cases e <;> simp [hasGetWrapper, ih]

theorem countGetWrapper_eq_zero (t : List Event) (h : hasGetWrapper t = false) :
    countGetWrapper t = 0 := by
  induction t with
  | nil => rfl
  | cons e t ih =>
    cases e <;> simp [hasGetWrapper, countGetWrapper] at h ⊢ <;> exact ih h

theorem wrapperAfterTxBegin_of_no_wrapper (t : List Event) (h : hasGetWrapper t = false) :
    wrapperAfterTxBegin t = false := by
  induction t with
  | nil => rfl
  | cons e t ih =>
    cases e <;> simp [hasGetWrapper, wrapperAfterTxBegin] at h ⊢ <;>
      first
      | exact ih h
      | exact h

theorem hasGetWrapper_txAttempt (bt : List Event) (f : Bool)
    (h : hasGetWrapper bt = false) : hasGetWrapper (txAttemptTrace bt f) = false := by
  cases f <;> simp [txAttemptTrace, hasGetWrapper, hasGetWrapper_append, h]

theorem hasGetWrapper_flatten_replicate (n : Nat) (t : List Event)
    (h : hasGetWrapper t = false) :
    hasGetWrapper (List.replicate n t).flatten = false := by
  induction n with
  | zero => rfl
  | succ n ih => simp [List.replicate_succ, hasGetWrapper_append, h, ih]

theorem hasGetWrapper_DoTx (r : Nat) (be : Option GoErr) (bt : List Event) (rb : Bool)
    (h : hasGetWrapper bt = false) : hasGetWrapper (DoTx r be bt rb).2 = false := by
  cases be with
  | none => simpa [DoTx] using hasGetWrapper_txAttempt bt false h
  | some e =>
    cases rb with
    | false => simpa [DoTx] using hasGetWrapper_txAttempt bt true h
    | true =>
      simpa [DoTx] using
        hasGetWrapper_flatten_replicate (r + 1) _ (hasGetWrapper_txAttempt bt true h)

theorem hasTxCommit_append (a b : List Event) :
    hasTxCommit (a ++ b) = (hasTxCommit a || hasTxCommit b) := by
  induction a with
  | nil => simp [hasTxCommit]
  | cons e t ih => cases e <;> simp [hasTxCommit, ih]

theorem hasTxCommit_flatten_replicate (n : Nat) (t : List Event)
    (h : hasTxCommit t = false) :
    hasTxCommit (List.replicate n t).flatten = false := by
  induction n with
  | zero => rfl
  | succ n ih => simp [List.replicate_succ, hasTxCommit_append, h, ih]

theorem hasTxCommit_DoTx_fail (r : Nat) (e : GoErr) (bt : List Event) (rb : Bool)
    (h : hasTxCommit bt = false) : hasTxCommit (DoTx r (some e) bt rb).2 = false := by
  have ha : hasTxCommit (txAttemptTrace bt true) = false := by
    simp [txAttemptTrace, hasTxCommit, hasTxCommit_append, h]
  cases rb with
  | false => simpa [DoTx] using ha
  | true => simpa [DoTx] using hasTxCommit_flatten_replicate (r + 1) _ ha

/-
  The transaction-closure traces contain no wrapper resolution, no
  transaction delimiters and no commits: they are pure store-call
  sequences.
-/

theorem body_createMembers (env : Env) (ms : List HostSetMember) :
    hasGetWrapper (createMembers env ms).2 = false ∧
    hasTxCommit (createMembers env ms).2 = false := by
  cases h : env.createItemsErr <;>
    simp [createMembers, h, hasGetWrapper, hasTxCommit]

theorem body_deleteMembers (env : Env) (ms : List HostSetMember) :
    hasGetWrapper (deleteMembers env ms).2 = false ∧
    hasTxCommit (deleteMembers env ms).2 = false := by
  cases h : env.deleteItemsRows <;>
    simp [deleteMembers, h, hasGetWrapper, hasTxCommit] <;>
    split <;> simp [hasGetWrapper, hasTxCommit]

theorem body_updateVersion (env : Env) (md : Metadata) (msgs : Nat) :
    hasGetWrapper (updateVersion env md msgs).2 = false ∧
    hasTxCommit (updateVersion env md msgs).2 = false := by
  cases h : env.updateRows with
  | error e => simp [updateVersion, h, hasGetWrapper, hasTxCommit]
  | ok n =>
    cases ht : env.getTicketErr <;> cases hw : env.writeOplogErr <;>
      simp [updateVersion, h, ht, hw, hasGetWrapper, hasTxCommit] <;>
      split <;> simp [hasGetWrapper, hasTxCommit]

theorem body_getHosts (env : Env) :
    hasGetWrapper (getHosts env).2 = false ∧ hasTxCommit (getHosts env).2 = false := by
  cases h : env.searchHosts <;> simp [getHosts, h, hasGetWrapper, hasTxCommit]

theorem body_addSetMembersTx (env : Env) (s : String) (ms : List HostSetMember) :
    hasGetWrapper (addSetMembersTx env s ms).2.2 = false ∧
    hasTxCommit (addSetMembersTx env s ms).2.2 = false := by
  simp only [addSetMembersTx]
  rcases h1 : (createMembers env ms).1 with e | msgs
  · simpa [h1] using body_createMembers env ms
  · rcases h2 : (updateVersion env (hostSetOplogMeta s opCreate) msgs).1 with _ | e
    · rcases h3 : (getHosts env).1 with e | hosts <;>
        simp [h1, h2, h3, hasGetWrapper_append, hasTxCommit_append,
          (body_createMembers env ms).1, (body_createMembers env ms).2,
          (body_updateVersion env (hostSetOplogMeta s opCreate) msgs).1,
          (body_updateVersion env (hostSetOplogMeta s opCreate) msgs).2,
          (body_getHosts env).1, (body_getHosts env).2]
    · simp [h1, h2, hasGetWrapper_append, hasTxCommit_append,
        (body_createMembers env ms).1, (body_createMembers env ms).2,
        (body_updateVersion env (hostSetOplogMeta s opCreate) msgs).1,
        (body_updateVersion env (hostSetOplogMeta s opCreate) msgs).2]

theorem body_deleteSetMembersTx (env : Env) (s : String) (ms : List HostSetMember) :
    hasGetWrapper (deleteSetMembersTx env s ms).2 = false ∧
    hasTxCommit (deleteSetMembersTx env s ms).2 = false := by
  simp only [deleteSetMembersTx]
  rcases h1 : (deleteMembers env ms).1 with e | msgs
  · simpa [h1] using body_deleteMembers env ms
  · simp [h1, hasGetWrapper_append, hasTxCommit_append,
      (body_deleteMembers env ms).1, (body_deleteMembers env ms).2,
      (body_updateVersion env (hostSetOplogMeta s opDelete) msgs).1,
      (body_updateVersion env (hostSetOplogMeta s opDelete) msgs).2]

theorem body_setMembersFinish (env : Env) (s : String) (tags : List String) (msgs : Nat)
    (pre : List Event) (hg : hasGetWrapper pre = false) (hc : hasTxCommit pre = false) :
    hasGetWrapper (setMembersFinish env s tags msgs pre).2.2 = false ∧
    hasTxCommit (setMembersFinish env s tags msgs pre).2.2 = false := by
  simp only [setMembersFinish]
  rcases h1 : (updateVersion env ⟨s, tags⟩ msgs).1 with _ | e
  · rcases h2 : (getHosts env).1 with e | hosts <;>
      simp [h1, h2, hasGetWrapper_append, hasTxCommit_append, hg, hc,
        (body_updateVersion env ⟨s, tags⟩ msgs).1, (body_updateVersion env ⟨s, tags⟩ msgs).2,
        (body_getHosts env).1, (body_getHosts env).2]
  · simp [h1, hasGetWrapper_append, hasTxCommit_append, hg, hc,
      (body_updateVersion env ⟨s, tags⟩ msgs).1, (body_updateVersion env ⟨s, tags⟩ msgs).2]

theorem body_setSetMembersTx (env : Env) (s : String)
    (dels adds : List HostSetMember) :
    hasGetWrapper (setSetMembersTx env s dels adds).2.2 = false ∧
    hasTxCommit (setSetMembersTx env s dels adds).2.2 = false := by
  simp only [setSetMembersTx]
  split
  · split
    · exact body_setMembersFinish env s _ _ _ rfl rfl
    · rcases h1 : (createMembers env adds).1 with e | cm
      · simpa [h1] using body_createMembers env adds
      · simp only [h1]
        exact body_setMembersFinish env s _ _ _
          (body_createMembers env adds).1 (body_createMembers env adds).2
  · rcases h1 : (deleteMembers env dels).1 with e | dm
    · simpa [h1] using body_deleteMembers env dels
    · simp only [h1]
      split
      · exact body_setMembersFinish env s _ _ _
          (body_deleteMembers env dels).1 (body_deleteMembers env dels).2
      · rcases h2 : (createMembers env adds).1 with e | cm
        · simp [h2, hasGetWrapper_append, hasTxCommit_append,
            (body_deleteMembers env dels).1, (body_deleteMembers env dels).2,
            (body_createMembers env adds).1, (body_createMembers env adds).2]
        · simp only [h2]
          refine body_setMembersFinish env s _ _ _ ?_ ?_
          · simp [hasGetWrapper_append, (body_deleteMembers env dels).1,
              (body_createMembers env adds).1]
          · simp [hasTxCommit_append, (body_deleteMembers env dels).2,
              (body_createMembers env adds).2]

theorem body_createRowTx (env : Env) :
    hasGetWrapper (createRowTx env).2 = false ∧ hasTxCommit (createRowTx env).2 = false := by
  cases h : env.createErr <;> simp [createRowTx, h, hasGetWrapper, hasTxCommit]

theorem body_updateHostTx (env : Env) :
    hasGetWrapper (updateHostTx env).2.2 = false ∧
    hasTxCommit (updateHostTx env).2.2 = false := by
  cases h : env.updateRows <;> simp [updateHostTx, h, hasGetWrapper, hasTxCommit] <;>
    split <;> simp [hasGetWrapper, hasTxCommit]

theorem body_deleteHostTx (env : Env) :
    hasGetWrapper (deleteHostTx env).2.2 = false ∧
    hasTxCommit (deleteHostTx env).2.2 = false := by
  cases h : env.deleteRows <;> simp [deleteHostTx, h, hasGetWrapper, hasTxCommit] <;>
    split <;> simp [hasGetWrapper, hasTxCommit]

theorem body_updateCatalogTx (env : Env) :
    hasGetWrapper (updateCatalogTx env).2.2 = false ∧
    hasTxCommit (updateCatalogTx env).2.2 = false := by
  cases h : env.updateRows <;> simp [updateCatalogTx, h, hasGetWrapper, hasTxCommit] <;>
    split <;> simp [hasGetWrapper, hasTxCommit]

theorem body_deleteCatalogTx (env : Env) :
    hasGetWrapper (deleteCatalogTx env).2.2 = false ∧
    hasTxCommit (deleteCatalogTx env).2.2 = false := by
  cases h : env.deleteRows <;> simp [deleteCatalogTx, h, hasGetWrapper, hasTxCommit] <;>
    split <;> simp [hasGetWrapper, hasTxCommit]

/-
  Wrapper-discipline lemmas, one per repository operation.
-/

theorem wrapperDiscipline_nil (env : Env) : wrapperDiscipline env [] :=
  ⟨rfl, by simp [countGetWrapper], fun _ => rfl⟩

theorem wrapperDiscipline_wrapper_only (env : Env) (s : String) :
    wrapperDiscipline env [Event.getWrapper s] := by
  refine ⟨rfl, by simp [countGetWrapper], fun _ => ?_⟩
  simp [hasTxBegin]

theorem wrapperDiscipline_of_tx (env : Env) (s : String) (t : List Event)
    (hok : env.getWrapperOk = true) (h : hasGetWrapper t = false) :
    wrapperDiscipline env (Event.getWrapper s :: t) := by
  refine ⟨?_, ?_, ?_⟩
  · simpa [wrapperAfterTxBegin] using wrapperAfterTxBegin_of_no_wrapper t h
  · simp [countGetWrapper, countGetWrapper_eq_zero t h]
  · intro hfalse
    rw [hok] at hfalse
    cases hfalse

theorem wrapperDiscipline_cons (env : Env) (e : Event) (t : List Event)
    (hgw : ∀ s, e ≠ .getWrapper s) (htb : e ≠ .txBegin)
    (h : wrapperDiscipline env t) : wrapperDiscipline env (e :: t) := by
  obtain ⟨h1, h2, h3⟩ := h
  cases e
  case getWrapper s => exact absurd rfl (hgw s)
  case txBegin => exact absurd rfl htb
  all_goals
    exact ⟨by simpa [wrapperAfterTxBegin] using h1, by simpa [countGetWrapper] using h2,
      fun hf => by simpa [hasTxBegin] using h3 hf⟩

theorem wrapperDiscipline_cons_query (env : Env) (t : List Event)
    (h : wrapperDiscipline env t) : wrapperDiscipline env (Event.query :: t) :=
  wrapperDiscipline_cons env _ t (fun _ hc => Event.noConfusion hc)
    (fun hc => Event.noConfusion hc) h

theorem wrapperDiscipline_cons_lookup (env : Env) (t : List Event)
    (h : wrapperDiscipline env t) : wrapperDiscipline env (Event.lookup :: t) :=
  wrapperDiscipline_cons env _ t (fun _ hc => Event.noConfusion hc)
    (fun hc => Event.noConfusion hc) h

theorem wrapperDiscipline_cons_genId (env : Env) (t : List Event)
    (h : wrapperDiscipline env t) : wrapperDiscipline env (Event.genId :: t) :=
  wrapperDiscipline_cons env _ t (fun _ hc => Event.noConfusion hc)
    (fun hc => Event.noConfusion hc) h

theorem wrapperDiscipline_genId_only (env : Env) : wrapperDiscipline env [Event.genId] :=
  wrapperDiscipline_cons_genId env [] (wrapperDiscipline_nil env)

theorem wd_AddSetMembers (env : Env) (scopeId setId : String) (version : Nat)
    (hostIds : List String) :
    wrapperDiscipline env (AddSetMembers env scopeId setId version hostIds).2 := by
  simp only [AddSetMembers]
  split
  · exact wrapperDiscipline_nil env
  · split
    · exact wrapperDiscipline_nil env
    · split
      · exact wrapperDiscipline_nil env
      · split
        · exact wrapperDiscipline_nil env
        · rcases hm : newMembersGo setId hostIds with e | ms
          · exact wrapperDiscipline_nil env
          · rcases hok : env.getWrapperOk with _ | _
            · simp only [hok, Bool.false_eq_true, if_false]
              exact wrapperDiscipline_wrapper_only env scopeId
            · simp only [hok, if_true]
              have hb := hasGetWrapper_DoTx stdRetryCnt (addSetMembersTx env setId ms).1
                (addSetMembersTx env setId ms).2.2 env.retryable
                (body_addSetMembersTx env setId ms).1
              rcases hd : (DoTx stdRetryCnt (addSetMembersTx env setId ms).1
                  (addSetMembersTx env setId ms).2.2 env.retryable).1 with _ | e <;>
                simp only [hd] <;>
                exact wrapperDiscipline_of_tx env scopeId _ hok hb

theorem wd_DeleteSetMembers (env : Env) (scopeId setId : String) (version : Nat)
    (hostIds : List String) :
    wrapperDiscipline env (DeleteSetMembers env scopeId setId version hostIds).2 := by
  simp only [DeleteSetMembers]
  split
  · exact wrapperDiscipline_nil env
  · split
    · exact wrapperDiscipline_nil env
    · split
      · exact wrapperDiscipline_nil env
      · split
        · exact wrapperDiscipline_nil env
        · rcases hm : newMembersGo setId hostIds with e | ms
          · exact wrapperDiscipline_nil env
          · rcases hok : env.getWrapperOk with _ | _
            · simp only [hok, Bool.false_eq_true, if_false]
              exact wrapperDiscipline_wrapper_only env scopeId
            · simp only [hok, if_true]
              have hb := hasGetWrapper_DoTx stdRetryCnt (deleteSetMembersTx env setId ms).1
                (deleteSetMembersTx env setId ms).2 env.retryable
                (body_deleteSetMembersTx env setId ms).1
              rcases hd : (DoTx stdRetryCnt (deleteSetMembersTx env setId ms).1
                  (deleteSetMembersTx env setId ms).2 env.retryable).1 with _ | e <;>
                simp only [hd] <;>
                exact wrapperDiscipline_of_tx env scopeId _ hok hb

theorem wd_SetSetMembers (env : Env) (scopeId setId : String) (version : Nat)
    (hostIds : List String) :
    wrapperDiscipline env (SetSetMembers env scopeId setId version hostIds).2 := by
  simp only [SetSetMembers]
  split
  · exact wrapperDiscipline_nil env
  · split
    · exact wrapperDiscipline_nil env
    · split
      · exact wrapperDiscipline_nil env
      · rcases hc : env.changesRows with e | changes
        · simp only [hc]
          exact wrapperDiscipline_cons_query env _ (wrapperDiscipline_nil env)
        · simp only [hc]
          rcases hp : partitionChanges setId changes with e | da
          · simp only [hp]
            exact wrapperDiscipline_cons_query env _ (wrapperDiscipline_nil env)
          · rcases da with ⟨dels, adds⟩
            simp only [hp]
            split
            · rcases hok : env.getWrapperOk with _ | _
              · simp only [hok, Bool.false_eq_true, if_false]
                exact wrapperDiscipline_cons_query env _
                  (wrapperDiscipline_wrapper_only env scopeId)
              · simp only [hok, if_true]
                have hb := hasGetWrapper_DoTx stdRetryCnt
                  (setSetMembersTx env setId dels adds).1
                  (setSetMembersTx env setId dels adds).2.2 env.retryable
                  (body_setSetMembersTx env setId dels adds).1
                rcases hd : (DoTx stdRetryCnt (setSetMembersTx env setId dels adds).1
                    (setSetMembersTx env setId dels adds).2.2 env.retryable).1 with _ | e <;>
                  simp only [hd] <;>
                  exact wrapperDiscipline_cons_query env _
                    (wrapperDiscipline_of_tx env scopeId _ hok hb)
            · exact wrapperDiscipline_cons_query env _ (wrapperDiscipline_nil env)

theorem wrapperDiscipline_append_pre (env : Env) (pre t : List Event)
    (hg : hasGetWrapper pre = false) (hb : hasTxBegin pre = false)
    (h : wrapperDiscipline env t) : wrapperDiscipline env (pre ++ t) := by
  induction pre with
  | nil => simpa using h
  | cons e p ih =>
    cases e
    case getWrapper s => simp [hasGetWrapper] at hg
    case txBegin => simp [hasTxBegin] at hb
    all_goals
      simp only [hasGetWrapper] at hg
      simp only [hasTxBegin] at hb
      exact wrapperDiscipline_cons env _ _ (by intro s hc; cases hc) (by intro hc; cases hc)
        (ih hg hb)

theorem wd_createHostFinish (env : Env) (scopeId : String) (h : Host) (pre : List Event)
    (hg : hasGetWrapper pre = false) (hb : hasTxBegin pre = false) :
    wrapperDiscipline env (createHostFinish env scopeId h pre).2 := by
  simp only [createHostFinish]
  rcases hok : env.getWrapperOk with _ | _
  · simp only [hok, Bool.false_eq_true, if_false]
    exact wrapperDiscipline_append_pre env pre _ hg hb
      (wrapperDiscipline_wrapper_only env scopeId)
  · simp only [hok, if_true]
    have hbody := hasGetWrapper_DoTx stdRetryCnt (createRowTx env).1 (createRowTx env).2
      env.retryable (body_createRowTx env).1
    rcases hd : (DoTx stdRetryCnt (createRowTx env).1 (createRowTx env).2
        env.retryable).1 with _ | e
    · simp only [hd]
      exact wrapperDiscipline_append_pre env pre _ hg hb
        (wrapperDiscipline_of_tx env scopeId _ hok hbody)
    · simp only [hd]
      rcases hcv : Convert (some e) "yyg1sVUuzo" with _ | de <;>
        simp only [hcv] <;>
        exact wrapperDiscipline_append_pre env pre _ hg hb
          (wrapperDiscipline_of_tx env scopeId _ hok hbody)

theorem wd_CreateHost (env : Env) (scopeId : String) (h : Option Host)
    (withPublicId : Option String) :
    wrapperDiscipline env (CreateHost env scopeId h withPublicId).2 := by
  simp only [CreateHost]
  rcases h with _ | host
  · exact wrapperDiscipline_nil env
  · repeat' split
    all_goals
      first
      | exact wrapperDiscipline_nil env
      | exact wrapperDiscipline_genId_only env
      | exact wd_createHostFinish env scopeId _ _ rfl rfl

theorem wd_createCatalogFinish (env : Env) (c : HostCatalog) (pre : List Event)
    (hg : hasGetWrapper pre = false) (hb : hasTxBegin pre = false) :
    wrapperDiscipline env (createCatalogFinish env c pre).2 := by
  simp only [createCatalogFinish]
  rcases hok : env.getWrapperOk with _ | _
  · simp only [hok, Bool.false_eq_true, if_false]
    exact wrapperDiscipline_append_pre env pre _ hg hb
      (wrapperDiscipline_wrapper_only env c.scopeId)
  · simp only [hok, if_true]
    have hbody := hasGetWrapper_DoTx stdRetryCnt (createRowTx env).1 (createRowTx env).2
      env.retryable (body_createRowTx env).1
    rcases hd : (DoTx stdRetryCnt (createRowTx env).1 (createRowTx env).2
        env.retryable).1 with _ | e
    · simp only [hd]
      exact wrapperDiscipline_append_pre env pre _ hg hb
        (wrapperDiscipline_of_tx env c.scopeId _ hok hbody)
    · simp only [hd]
      rcases hcv : Convert (some e) "lpmawQlpci" with _ | de <;>
        simp only [hcv] <;>
        exact wrapperDiscipline_append_pre env pre _ hg hb
          (wrapperDiscipline_of_tx env c.scopeId _ hok hbody)

theorem wd_CreateCatalog (env : Env) (c : Option HostCatalog)
    (withPublicId : Option String) :
    wrapperDiscipline env (CreateCatalog env c withPublicId).2 := by
  simp only [CreateCatalog]
  rcases c with _ | cat
  · exact wrapperDiscipline_nil env
  · repeat' split
    all_goals
      first
      | exact wrapperDiscipline_nil env
      | exact wrapperDiscipline_genId_only env
      | exact wd_createCatalogFinish env _ _ rfl rfl

theorem wd_UpdateHost (env : Env) (scopeId : String) (h : Option Host) (version : Nat)
    (fieldMaskPaths : List String) :
    wrapperDiscipline env (UpdateHost env scopeId h version fieldMaskPaths).2 := by
  simp only [UpdateHost]
  rcases h with _ | host
  · exact wrapperDiscipline_nil env
  · repeat' split
    all_goals
      first
      | exact wrapperDiscipline_nil env
      | exact wrapperDiscipline_wrapper_only env scopeId
      | exact wrapperDiscipline_of_tx env scopeId _ ‹env.getWrapperOk = true›
          (hasGetWrapper_DoTx _ _ _ _ (body_updateHostTx env).1)

theorem wd_DeleteHost (env : Env) (scopeId publicId : String) :
    wrapperDiscipline env (DeleteHost env scopeId publicId).2 := by
  simp only [DeleteHost]
  repeat' split
  all_goals
    first
    | exact wrapperDiscipline_nil env
    | exact wrapperDiscipline_wrapper_only env scopeId
    | exact wrapperDiscipline_of_tx env scopeId _ ‹env.getWrapperOk = true›
        (hasGetWrapper_DoTx _ _ _ _ (body_deleteHostTx env).1)

theorem wd_UpdateCatalog (env : Env) (c : Option HostCatalog) (version : Nat)
    (fieldMask : List String) :
    wrapperDiscipline env (UpdateCatalog env c version fieldMask).2 := by
  simp only [UpdateCatalog]
  rcases c with _ | cat
  · exact wrapperDiscipline_nil env
  · repeat' split
    all_goals
      first
      | exact wrapperDiscipline_nil env
      | exact wrapperDiscipline_wrapper_only env cat.scopeId
      | exact wrapperDiscipline_of_tx env cat.scopeId _ ‹env.getWrapperOk = true›
          (hasGetWrapper_DoTx _ _ _ _ (body_updateCatalogTx env).1)

theorem wd_DeleteCatalog (env : Env) (id : String) :
    wrapperDiscipline env (DeleteCatalog env id).2 := by
  simp only [DeleteCatalog]
  repeat' split
  all_goals
    first
    | exact wrapperDiscipline_nil env
    | exact wrapperDiscipline_cons_lookup env _ (wrapperDiscipline_nil env)
    | exact wrapperDiscipline_cons_lookup env _
        (wrapperDiscipline_wrapper_only env env.catalogRow.scopeId)
    | exact wrapperDiscipline_cons_lookup env _
        (wrapperDiscipline_of_tx env env.catalogRow.scopeId _ ‹env.getWrapperOk = true›
          (hasGetWrapper_DoTx _ _ _ _ (body_deleteCatalogTx env).1))

/-
  Claim theorems.
-/

/-- C1 counterexample: the claim that the per-scope wrapper is resolved
inside the transaction body is false on the code.  In a fully successful
AddSetMembers execution the only wrapper resolution is the first event
of the trace, before the transaction opens (no wrapper resolution occurs
after txBegin); and when wrapper resolution fails, the call returns the
"unable to get oplog wrapper" error with a trace that contains no
transaction at all — there is no transaction to abort and no prior
writes to roll back. -/
theorem C1_counterexample :
    (AddSetMembers envBase "scope1" "hsst_1" 1 ["hst_1"]).2 =
      [.getWrapper "scope1", .txBegin, .createItems 1, .updateRow, .getTicket,
        .writeOplog [opCreate] 2, .searchWhere, .txCommit] ∧
    hasGetWrapper (AddSetMembers envBase "scope1" "hsst_1" 1 ["hst_1"]).2 = true ∧
    hasTxBegin (AddSetMembers envBase "scope1" "hsst_1" 1 ["hst_1"]).2 = true ∧
    wrapperAfterTxBegin (AddSetMembers envBase "scope1" "hsst_1" 1 ["hst_1"]).2 = false ∧
    (AddSetMembers envNoWrapper "scope1" "hsst_1" 1 ["hst_1"]).1 =
      .error (wrapE kmsWrapperErr "i5zaqevLYX" (some "unable to get oplog wrapper")) ∧
    (AddSetMembers envNoWrapper "scope1" "hsst_1" 1 ["hst_1"]).2 = [.getWrapper "scope1"] ∧
    hasTxBegin (AddSetMembers envNoWrapper "scope1" "hsst_1" 1 ["hst_1"]).2 = false := by
  decide

/-- C1 (amended): in every mutating repository operation that writes an
oplog entry, the per-scope wrapper is resolved immediately BEFORE the
transaction is opened, not inside it: no execution resolves a wrapper
after a transaction has begun, at most one wrapper resolution happens
per call (a retry of the transaction body does not re-execute the
resolution), and a wrapper-resolution failure returns the
"unable to get wrapper" wrapped error without opening any transaction,
so there are no prior writes to roll back. -/
theorem C1_wrapper_resolved_before_transaction :
    ∀ (env : Env) (scopeId setId id publicId : String) (version : Nat)
      (hostIds fieldMask : List String) (h : Option Host) (c : Option HostCatalog)
      (withPublicId : Option String),
      wrapperDiscipline env (AddSetMembers env scopeId setId version hostIds).2 ∧
      wrapperDiscipline env (DeleteSetMembers env scopeId setId version hostIds).2 ∧
      wrapperDiscipline env (SetSetMembers env scopeId setId version hostIds).2 ∧
      wrapperDiscipline env (CreateHost env scopeId h withPublicId).2 ∧
      wrapperDiscipline env (UpdateHost env scopeId h version fieldMask).2 ∧
      wrapperDiscipline env (DeleteHost env scopeId publicId).2 ∧
      wrapperDiscipline env (CreateCatalog env c withPublicId).2 ∧
      wrapperDiscipline env (UpdateCatalog env c version fieldMask).2 ∧
      wrapperDiscipline env (DeleteCatalog env id).2 :=
  fun env scopeId setId id publicId version hostIds fieldMask h c withPublicId =>
    ⟨wd_AddSetMembers env scopeId setId version hostIds,
      wd_DeleteSetMembers env scopeId setId version hostIds,
      wd_SetSetMembers env scopeId setId version hostIds,
      wd_CreateHost env scopeId h withPublicId,
      wd_UpdateHost env scopeId h version fieldMask,
      wd_DeleteHost env scopeId publicId,
      wd_CreateCatalog env c withPublicId,
      wd_UpdateCatalog env c version fieldMask,
      wd_DeleteCatalog env id⟩

/-- C1 witness: at a concrete input with a failing wrapper resolution,
the amended theorem's no-transaction guarantee evaluates: AddSetMembers
under envNoWrapper opens no transaction. -/
theorem C1_witness :
    hasTxBegin (AddSetMembers envNoWrapper "scope1" "hsst_1" 1 ["hst_1"]).2 = false :=
  (C1_wrapper_resolved_before_transaction envNoWrapper "scope1" "hsst_1" "" "" 1
    ["hst_1"] [] none none none).1.2.2 rfl

/-- C2: when the computed delta of SetSetMembers is empty the operation
is indeed a no-op with changed-row count zero, no transaction and no
oplog write (the trace is just the change-set query) — but it returns a
nil host list, NOT the current membership: under envC2 the store's
membership is [host1], while the call returns the empty list.  This
contradicts the claim and the method's own doc comment ("It returns a
slice of all hosts in setId"), because the `hosts` variable is only
assigned inside the transaction closure that the empty-delta path never
runs. -/
theorem C2_empty_delta_returns_nil_membership :
    SetSetMembers envC2 "scope1" "hsst_1" 1 ["hst_1"] = (.ok ([], 0), [.query]) ∧
    (getHosts envC2).1 = .ok [host1] ∧
    ([] : List Host) ≠ [host1] := by
  decide

theorem errCodeOf_newE (code : Code) (i : String) (m : Option String)
    (w : Option GoErr) : errCodeOf (newE code i m w) = code := by
  cases w <;> rfl

/-- C3: for every domain error handed to the API Error Handler, the
produced wire error is exactly: 400 InvalidArgument with message
"Error in provided request" and an update_mask field detail for
InvalidFieldMask and EmptyFieldMask; 400 InvalidArgument with the fixed
generic uniqueness message for NotUnique; 404 NotFound with the fixed
generic not-found message for RecordNotFound; and 500 Internal for every
other code, with an empty message, the non-empty generated correlation
id in Details.ErrorId, and a response that does not depend on the
underlying error's id, message or wrapped cause at all (so the
underlying message never appears in the body). -/
theorem C3_api_error_handler_mapping (code : Code) (errorId msg : String)
    (wrapped : Option GoErr) (genId : String) (hg : genId ≠ "") :
    ((code = .invalidFieldMask ∨ code = .emptyFieldMask) →
      apiErrorForDomain (newE code errorId (some msg) wrapped) genId =
        ⟨400, "InvalidArgument", "Error in provided request",
          ⟨[⟨"update_mask", "Invalid update mask provided."⟩], ""⟩⟩) ∧
    (code = .notUnique →
      apiErrorForDomain (newE code errorId (some msg) wrapped) genId =
        ⟨400, "InvalidArgument", genericUniquenessMsg, ⟨[], ""⟩⟩) ∧
    (code = .recordNotFound →
      apiErrorForDomain (newE code errorId (some msg) wrapped) genId =
        ⟨404, "NotFound", genericNotFoundMsg, ⟨[], ""⟩⟩) ∧
    (code ≠ .invalidFieldMask → code ≠ .emptyFieldMask → code ≠ .notUnique →
      code ≠ .recordNotFound →
      apiErrorForDomain (newE code errorId (some msg) wrapped) genId =
        ⟨500, "Internal", "", ⟨[], genId⟩⟩ ∧
      (apiErrorForDomain (newE code errorId (some msg) wrapped) genId).message = "" ∧
      (apiErrorForDomain (newE code errorId (some msg) wrapped)
        genId).details.errorIdDetail ≠ "") ∧
    (∀ (errorId2 msg2 : String) (wrapped2 : Option GoErr),
      apiErrorForDomain (newE code errorId (some msg) wrapped) genId =
        apiErrorForDomain (newE code errorId2 (some msg2) wrapped2) genId) := by
  refine ⟨?_, ?_, ?_, ?_, ?_⟩
  · rintro (h | h) <;> subst h <;>
      simp [apiErrorForDomain, errCodeOf_newE]
  · intro h
    subst h
    simp [apiErrorForDomain, errCodeOf_newE]
  · intro h
    subst h
    simp [apiErrorForDomain, errCodeOf_newE]
  · intro h1 h2 h3 h4
    refine ⟨?_, ?_, ?_⟩ <;>
      simp [apiErrorForDomain, errCodeOf_newE, h1, h2, h3, h4, hg]
  · intro errorId2 msg2 wrapped2
    simp only [apiErrorForDomain, errCodeOf_newE]

/-- C3 witness: at concrete inputs, the field-mask branch and the
500-class branch evaluate as the theorem states. -/
theorem C3_witness :
    apiErrorForDomain (newE .invalidFieldMask "testid" (some "test msg") none) "e_1" =
      ⟨400, "InvalidArgument", "Error in provided request",
        ⟨[⟨"update_mask", "Invalid update mask provided."⟩], ""⟩⟩ ∧
    apiErrorForDomain (newE .missingPublicId "testid" (some "test msg") none) "e_1" =
      ⟨500, "Internal", "", ⟨[], "e_1"⟩⟩ := by
  constructor
  · exact (C3_api_error_handler_mapping .invalidFieldMask "testid" "test msg" none "e_1"
      (by decide)).1 (Or.inl rfl)
  · exact ((C3_api_error_handler_mapping .missingPublicId "testid" "test msg" none "e_1"
      (by decide)).2.2.2.1 (by decide) (by decide) (by decide) (by decide)).1

theorem errString_domain_eq (code : Code) (i m : String) :
    errString (.domain code i m) = specErrorStringFormat code i m := by
  cases code <;>
    simp [errString, specErrorStringFormat, selfParts, goJoin, String.append_assoc] <;>
    split <;> split <;> simp [goJoin, String.append_assoc]

theorem goJoin_append_single (sep : String) (xs : List String) (y : String)
    (h : xs ≠ []) : goJoin sep (xs ++ [y]) = goJoin sep xs ++ sep ++ y := by
  induction xs with
  | nil => exact absurd rfl h
  | cons a rest ih =>
    cases rest with
    | nil => simp [goJoin]
    | cons b rest2 =>
      have ih2 := ih (by simp)
      simp only [List.cons_append, List.append_eq, goJoin] at ih2 ⊢
      rw [ih2]
      simp [String.append_assoc]

theorem selfParts_ne_nil (code : Code) (i m : String) : selfParts code i m ≠ [] := by
  simp [selfParts]

theorem errString_wrapD_eq (code : Code) (i m : String) (inner : GoErr) :
    errString (.wrapD code i m inner) =
      specErrorStringFormat code i m ++ ": " ++ ("\n" ++ errString inner) := by
  have h1 := goJoin_append_single ": " (selfParts code i m) ("\n" ++ errString inner)
    (selfParts_ne_nil code i m)
  calc errString (.wrapD code i m inner)
      = goJoin ": " (selfParts code i m ++ ["\n" ++ errString inner]) := rfl
    _ = goJoin ": " (selfParts code i m) ++ ": " ++ ("\n" ++ errString inner) := h1
    _ = specErrorStringFormat code i m ++ ": " ++ ("\n" ++ errString inner) := by
        rw [show goJoin ": " (selfParts code i m) = specErrorStringFormat code i m from
          errString_domain_eq code i m]

/-- C7 counterexample: an error constructed by New with a WithWrap
option does not render in the claimed
"[id: ][msg: ]kindText[, subtext]: error #code" shape — the wrapped
cause's rendering follows after ": \n", as the expected strings of
TestConvertError show.  At the concrete input
New(NotUnique, "", WithMsg("x"), WithWrap(ErrNotUnique)) the produced
string differs from the claimed format. -/
theorem C7_counterexample :
    errString (newE .notUnique "" (some "x") (some ErrNotUnique)) ≠
      specErrorStringFormat .notUnique "" "x" := by
  decide

/-- C7 (amended): for every domain error constructed by New WITHOUT a
WithWrap option, Error() is exactly the spec's format
"[id: ][msg: ]kindText[, subtext]: error #code" (with the registry
default message and the kind text as the comma subtext when no message
was supplied); with a WithWrap option the same format is followed by
": \n" and the wrapped error's rendering.  In particular
New(Unknown, "", WithMsg("test msg")).Error() = "test msg: unknown: error #0". -/
theorem C7_error_string_format :
    (∀ (code : Code) (errorId : String) (withMsg : Option String),
      errString (newE code errorId withMsg none) =
        specErrorStringFormat code errorId (withMsg.getD "")) ∧
    (∀ (code : Code) (errorId : String) (withMsg : Option String) (inner : GoErr),
      errString (newE code errorId withMsg (some inner)) =
        specErrorStringFormat code errorId (withMsg.getD "") ++ ": " ++
          ("\n" ++ errString inner)) ∧
    errString (newE .unknown "" (some "test msg") none) = "test msg: unknown: error #0" := by
  refine ⟨?_, ?_, by decide⟩
  · intro code errorId withMsg
    exact errString_domain_eq code errorId (withMsg.getD "")
  · intro code errorId withMsg inner
    exact errString_wrapD_eq code errorId (withMsg.getD "") inner

/-- C8: Convert returns nil for a nil input and for any store error that
matches no known constraint-violation pattern (it never itself fails —
it is a total function into an Option); a unique-violation-shaped store
error converts to a non-nil domain error whose chain satisfies
Is(result, ErrNotUnique); and when Convert declines, the caller
(CreateHost) synthesizes a generic Unknown error carrying the entity
context (catalog id and name) and wrapping the raw store error. -/
theorem C8_convert_contract :
    (∀ errorId : String, Convert none errorId = none) ∧
    (∀ errorId msg : String, Convert (some (.foreign msg)) errorId = none) ∧
    (∀ errorId msg : String,
      Convert (some (.pqe "23505" msg)) errorId =
        some (.wrapD .notUnique errorId msg ErrNotUnique) ∧
      isErr (.wrapD .notUnique errorId msg ErrNotUnique) ErrNotUnique = true) ∧
    (∀ (env : Env) (scopeId : String) (host : Host) (e : GoErr),
      host.catalogId ≠ "" → host.publicId = "" → scopeId ≠ "" →
      minHostAddressLength ≤ (goTrimSpace host.address).length →
      (goTrimSpace host.address).length ≤ maxHostAddressLength →
      env.newIdOk = true → env.getWrapperOk = true →
      env.createErr = some e → Convert (some e) "yyg1sVUuzo" = none →
      (CreateHost env scopeId (some host) none).1 =
        .error (newE .unknown "mEN8tF6Zbr"
          (some ("catalog: " ++ host.catalogId ++ ": \"" ++ host.name ++ "\""))
          (some e))) := by
  refine ⟨fun _ => rfl, fun _ _ => rfl, ?_, ?_⟩
  · intro errorId msg
    refine ⟨by simp [Convert], ?_⟩
    simp [isErr, ErrNotUnique, newE, mkErr]
  · intro env scopeId host e h1 h2 h3 h4 h5 h6 h7 h8 h9
    have haddr : ¬((goTrimSpace host.address).length < minHostAddressLength ∨
        maxHostAddressLength < (goTrimSpace host.address).length) := by omega
    have hd1 : (DoTx stdRetryCnt (createRowTx env).1 (createRowTx env).2
        env.retryable).1 = some e := by
      cases hr : env.retryable <;> simp [createRowTx, h8, DoTx]
    simp [CreateHost, h1, h2, h3, haddr, h6, createHostFinish, h7, hd1, h9]

/-- C8 witness: the contract evaluated at concrete inputs, including a
CreateHost whose store create fails with an unclassifiable foreign
error. -/
theorem C8_witness :
    Convert none "testid" = none ∧
    Convert (some (.foreign "test error")) "testid" = none ∧
    (CreateHost envCreateFail "scope1" (some { host1 with publicId := "" }) none).1 =
      .error (newE .unknown "mEN8tF6Zbr" (some "catalog: hcst_1: \"\"")
        (some (.foreign "create failed"))) := by
  refine ⟨C8_convert_contract.1 "testid", C8_convert_contract.2.1 "testid" "test error", ?_⟩
  have h := C8_convert_contract.2.2.2 envCreateFail "scope1" { host1 with publicId := "" }
    (.foreign "create failed") (by decide) (by decide) (by decide) (by decide) (by decide)
    (by decide) (by decide) (by decide) (by decide)
  exact h.trans (by decide)

/-- C5: AddSetMembers, DeleteSetMembers and SetSetMembers fail fast on
an empty scope id, an empty set id, a zero version, and (for Add/Delete)
an empty host-id list, with the corresponding Parameter-kind domain
error (MissingScopeId, MissingSetId, MissingVersion, MissingHostIds) and
an empty event trace — so no transaction is opened and no store or KMS
call is made.  The checks run in that order, each one reached only when
the previous ones pass; SetSetMembers deliberately has no host-ids check
(an empty target means "remove all members"). -/
theorem C5_member_ops_fail_fast (env : Env) (scopeId setId : String) (version : Nat)
    (hostIds : List String) :
    (scopeId = "" →
      AddSetMembers env scopeId setId version hostIds =
        (.error (newE .missingScopeId "xymycsueQZ" none none), []) ∧
      DeleteSetMembers env scopeId setId version hostIds =
        (.error (newE .missingScopeId "KGgpz1d72e" none none), []) ∧
      SetSetMembers env scopeId setId version hostIds =
        (.error (newE .missingScopeId "f586g3Ou3N" none none), [])) ∧
    (scopeId ≠ "" → setId = "" →
      AddSetMembers env scopeId setId version hostIds =
        (.error (newE .missingSetId "bnxBOpC9ko" none none), []) ∧
      DeleteSetMembers env scopeId setId version hostIds =
        (.error (newE .missingSetId "NPD70tsHdL" none none), []) ∧
      SetSetMembers env scopeId setId version hostIds =
        (.error (newE .missingSetId "ovPimJEOGi" none none), [])) ∧
    (scopeId ≠ "" → setId ≠ "" → version = 0 →
      AddSetMembers env scopeId setId version hostIds =
        (.error (newE .missingVersion "9n49kDCsYS" none none), []) ∧
      DeleteSetMembers env scopeId setId version hostIds =
        (.error (newE .missingVersion "fyq9s5qJG7" none none), []) ∧
      SetSetMembers env scopeId setId version hostIds =
        (.error (newE .missingVersion "eK5fZS45A7" none none), [])) ∧
    (scopeId ≠ "" → setId ≠ "" → version ≠ 0 → hostIds = [] →
      AddSetMembers env scopeId setId version hostIds =
        (.error (newE .missingHostIds "lIT0VcwEBL" none none), []) ∧
      DeleteSetMembers env scopeId setId version hostIds =
        (.error (newE .missingHostIds "h9TdzKEJu3" none none), [])) ∧
    ((errorCodeInfo .missingScopeId).kind = .parameter ∧
      (errorCodeInfo .missingSetId).kind = .parameter ∧
      (errorCodeInfo .missingVersion).kind = .parameter ∧
      (errorCodeInfo .missingHostIds).kind = .parameter) := by
  refine ⟨?_, ?_, ?_, ?_, by decide⟩
  · intro h1
    subst h1
    exact ⟨by simp [AddSetMembers], by simp [DeleteSetMembers], by simp [SetSetMembers]⟩
  · intro h1 h2
    subst h2
    exact ⟨by simp [AddSetMembers, h1], by simp [DeleteSetMembers, h1],
      by simp [SetSetMembers, h1]⟩
  · intro h1 h2 h3
    subst h3
    exact ⟨by simp [AddSetMembers, h1, h2], by simp [DeleteSetMembers, h1, h2],
      by simp [SetSetMembers, h1, h2]⟩
  · intro h1 h2 h3 h4
    subst h4
    exact ⟨by simp [AddSetMembers, h1, h2, h3], by simp [DeleteSetMembers, h1, h2, h3]⟩

/-- C5 witness: each validation evaluated at a concrete violating
input. -/
theorem C5_witness :
    AddSetMembers envBase "" "hsst_1" 1 ["hst_1"] =
      (.error (newE .missingScopeId "xymycsueQZ" none none), []) ∧
    DeleteSetMembers envBase "scope1" "" 1 ["hst_1"] =
      (.error (newE .missingSetId "NPD70tsHdL" none none), []) ∧
    SetSetMembers envBase "scope1" "hsst_1" 0 ["hst_1"] =
      (.error (newE .missingVersion "eK5fZS45A7" none none), []) ∧
    AddSetMembers envBase "scope1" "hsst_1" 1 [] =
      (.error (newE .missingHostIds "lIT0VcwEBL" none none), []) := by
  refine ⟨?_, ?_, ?_, ?_⟩
  · exact ((C5_member_ops_fail_fast envBase "" "hsst_1" 1 ["hst_1"]).1 rfl).1
  · exact ((C5_member_ops_fail_fast envBase "scope1" "" 1 ["hst_1"]).2.1
      (by decide) rfl).2.1
  · exact ((C5_member_ops_fail_fast envBase "scope1" "hsst_1" 0 ["hst_1"]).2.2.1
      (by decide) (by decide) rfl).2.2
  · exact ((C5_member_ops_fail_fast envBase "scope1" "hsst_1" 1 []).2.2.2.1
      (by decide) (by decide) (by decide) rfl).1

/-- C9: LookupHost and LookupCatalog with a non-empty public id return
(nil, nil) — a nil entity and no error — when the store reports its
record-not-found sentinel, return the filled row when the lookup
succeeds, and return any other store error wrapped with the
"lookup failed for <id>" message. -/
theorem C9_lookup_not_found_is_nil_nil (env : Env) (publicId : String)
    (hp : publicId ≠ "") :
    (env.lookupErr = none →
      LookupHost env publicId =
        (.ok (some { env.hostRow with publicId := publicId }), [.lookup]) ∧
      LookupCatalog env publicId =
        (.ok (some { env.catalogRow with publicId := publicId }), [.lookup])) ∧
    (∀ e, env.lookupErr = some e → isErr e ErrRecordNotFound = true →
      LookupHost env publicId = (.ok none, [.lookup]) ∧
      LookupCatalog env publicId = (.ok none, [.lookup])) ∧
    (∀ e, env.lookupErr = some e → isErr e ErrRecordNotFound = false →
      LookupHost env publicId =
        (.error (wrapE e "Ljwlcf1AdE" (some ("lookup failed for " ++ publicId))),
          [.lookup]) ∧
      LookupCatalog env publicId =
        (.error (wrapE e "rKb8JERpza" (some ("lookup failed for " ++ publicId))),
          [.lookup])) := by
  refine ⟨?_, ?_, ?_⟩
  · intro h
    exact ⟨by simp [LookupHost, hp, h], by simp [LookupCatalog, hp, h]⟩
  · intro e he hrnf
    exact ⟨by simp [LookupHost, hp, he, hrnf], by simp [LookupCatalog, hp, he, hrnf]⟩
  · intro e he hrnf
    exact ⟨by simp [LookupHost, hp, he, hrnf], by simp [LookupCatalog, hp, he, hrnf]⟩

/-- C9 witness: the record-not-found sentinel yields (nil, nil) and a
foreign store error is returned wrapped, at concrete inputs. -/
theorem C9_witness :
    LookupHost envRnf "hst_1" = (.ok none, [.lookup]) ∧
    LookupCatalog envRnf "hcst_1" = (.ok none, [.lookup]) ∧
    LookupHost envLookupFail "hst_1" =
      (.error (wrapE (.foreign "connection reset") "Ljwlcf1AdE"
        (some ("lookup failed for " ++ "hst_1"))), [.lookup]) := by
  refine ⟨?_, ?_, ?_⟩
  · exact ((C9_lookup_not_found_is_nil_nil envRnf "hst_1" (by decide)).2.1
      ErrRecordNotFound rfl (by decide)).1
  · exact ((C9_lookup_not_found_is_nil_nil envRnf "hcst_1" (by decide)).2.1
      ErrRecordNotFound rfl (by decide)).2
  · exact ((C9_lookup_not_found_is_nil_nil envLookupFail "hst_1" (by decide)).2.2
      (.foreign "connection reset") rfl (by decide)).1

theorem hasGenId_append (a b : List Event) :
    hasGenId (a ++ b) = (hasGenId a || hasGenId b) := by
  induction a with
  | nil => simp [hasGenId]
  | cons e t ih => cases e <;> simp [hasGenId, ih]

theorem hasGenId_txAttempt (bt : List Event) (f : Bool) :
    hasGenId (txAttemptTrace bt f) = hasGenId bt := by
  cases f <;> simp [txAttemptTrace, hasGenId, hasGenId_append]

theorem hasGenId_flatten_replicate (n : Nat) (t : List Event) (h : hasGenId t = false) :
    hasGenId (List.replicate n t).flatten = false := by
  induction n with
  | zero => rfl
  | succ n ih => simp [List.replicate_succ, hasGenId_append, h, ih]

theorem hasGenId_DoTx (r : Nat) (be : Option GoErr) (bt : List Event) (rb : Bool)
    (h : hasGenId bt = false) : hasGenId (DoTx r be bt rb).2 = false := by
  cases be with
  | none => simp [DoTx, hasGenId_txAttempt, h]
  | some e =>
    cases rb with
    | false => simp [DoTx, hasGenId_txAttempt, h]
    | true =>
      simpa [DoTx] using
        hasGenId_flatten_replicate (r + 1) _ (by simp [hasGenId_txAttempt, h])

theorem hasGenId_createRowTx (env : Env) : hasGenId (createRowTx env).2 = false := by
  cases h : env.createErr <;> simp [createRowTx, h, hasGenId]

theorem createHostFinish_trace_genId (env : Env) (scopeId : String) (h : Host)
    (pre : List Event) :
    hasGenId (createHostFinish env scopeId h pre).2 = hasGenId pre := by
  simp only [createHostFinish]
  have htx : hasGenId (DoTx stdRetryCnt (createRowTx env).1 (createRowTx env).2
      env.retryable).2 = false :=
    hasGenId_DoTx _ _ _ _ (hasGenId_createRowTx env)
  rcases hok : env.getWrapperOk with _ | _
  · simp [hok, hasGenId_append, hasGenId]
  · rcases hd : (DoTx stdRetryCnt (createRowTx env).1 (createRowTx env).2
        env.retryable).1 with _ | e
    · simp [hok, hd, hasGenId_append, hasGenId, htx]
    · rcases hcv : Convert (some e) "yyg1sVUuzo" with _ | de <;>
        simp [hok, hd, hcv, hasGenId_append, hasGenId, htx]

theorem createHostFinish_ok_val (env : Env) (scopeId : String) (h : Host)
    (pre : List Event) :
    ∀ h2, (createHostFinish env scopeId h pre).1 = .ok h2 → h2 = h := by
  intro h2 heq
  simp only [createHostFinish] at heq
  rcases hok : env.getWrapperOk with _ | _
  · simp [hok] at heq
  · rcases hd : (DoTx stdRetryCnt (createRowTx env).1 (createRowTx env).2
        env.retryable).1 with _ | e
    · simp [hok, hd] at heq
      exact heq.symm
    · rcases hcv : Convert (some e) "yyg1sVUuzo" with _ | de <;>
        simp [hok, hd, hcv] at heq

theorem createCatalogFinish_trace_genId (env : Env) (c : HostCatalog)
    (pre : List Event) :
    hasGenId (createCatalogFinish env c pre).2 = hasGenId pre := by
  simp only [createCatalogFinish]
  have htx : hasGenId (DoTx stdRetryCnt (createRowTx env).1 (createRowTx env).2
      env.retryable).2 = false :=
    hasGenId_DoTx _ _ _ _ (hasGenId_createRowTx env)
  rcases hok : env.getWrapperOk with _ | _
  · simp [hok, hasGenId_append, hasGenId]
  · rcases hd : (DoTx stdRetryCnt (createRowTx env).1 (createRowTx env).2
        env.retryable).1 with _ | e
    · simp [hok, hd, hasGenId_append, hasGenId, htx]
    · rcases hcv : Convert (some e) "lpmawQlpci" with _ | de <;>
        simp [hok, hd, hcv, hasGenId_append, hasGenId, htx]

theorem createCatalogFinish_ok_val (env : Env) (c : HostCatalog) (pre : List Event) :
    ∀ c2, (createCatalogFinish env c pre).1 = .ok c2 → c2 = c := by
  intro c2 heq
  simp only [createCatalogFinish] at heq
  rcases hok : env.getWrapperOk with _ | _
  · simp [hok] at heq
  · rcases hd : (DoTx stdRetryCnt (createRowTx env).1 (createRowTx env).2
        env.retryable).1 with _ | e
    · simp [hok, hd] at heq
      exact heq.symm
    · rcases hcv : Convert (some e) "lpmawQlpci" with _ | de <;>
        simp [hok, hd, hcv] at heq

/-- C10: CreateHost and CreateCatalog honor the caller-supplied public
id option.  A supplied id with the wrong prefix ("hst_" for hosts,
"hcst_" for catalogs) fails with InvalidParameter before any
transaction, KMS or store call (empty trace); a supplied id with the
right prefix is used as the new entity's public id and no id generation
happens; with no supplied id the generated id is used and the trace
records the generation. -/
theorem C10_create_honors_public_id_option (env : Env) (scopeId : String) (host : Host)
    (cat : HostCatalog) (pid : String) :
    (host.catalogId ≠ "" → host.publicId = "" → scopeId ≠ "" →
      minHostAddressLength ≤ (goTrimSpace host.address).length →
      (goTrimSpace host.address).length ≤ maxHostAddressLength →
      (startsWithGo pid (hostPfx ++ "_") = false →
        CreateHost env scopeId (some host) (some pid) =
          (.error (newE .invalidParameter "fVA68Amp1G"
            (some ("passed-in public ID \"" ++ pid ++ "\" has wrong prefix, should be \"" ++
              hostPfx ++ "\"")) none), [])) ∧
      (startsWithGo pid (hostPfx ++ "_") = true →
        (∀ h2, (CreateHost env scopeId (some host) (some pid)).1 = .ok h2 →
          h2.publicId = pid) ∧
        hasGenId (CreateHost env scopeId (some host) (some pid)).2 = false) ∧
      (∀ h2, (CreateHost env scopeId (some host) none).1 = .ok h2 →
        h2.publicId = env.newId) ∧
      hasGenId (CreateHost env scopeId (some host) none).2 = true) ∧
    (cat.scopeId ≠ "" → cat.publicId = "" →
      (startsWithGo pid (hostCatalogPfx ++ "_") = false →
        CreateCatalog env (some cat) (some pid) =
          (.error (newE .invalidParameter "o8KBnSVBtW"
            (some ("passed-in public ID \"" ++ pid ++ "\" has wrong prefix, should be \"" ++
              hostCatalogPfx ++ "\"")) none), [])) ∧
      (startsWithGo pid (hostCatalogPfx ++ "_") = true →
        (∀ c2, (CreateCatalog env (some cat) (some pid)).1 = .ok c2 →
          c2.publicId = pid) ∧
        hasGenId (CreateCatalog env (some cat) (some pid)).2 = false) ∧
      (∀ c2, (CreateCatalog env (some cat) none).1 = .ok c2 → c2.publicId = env.newId) ∧
      hasGenId (CreateCatalog env (some cat) none).2 = true) := by
  constructor
  · intro h1 h2 h3 h4 h5
    have haddr : ¬((goTrimSpace host.address).length < minHostAddressLength ∨
        maxHostAddressLength < (goTrimSpace host.address).length) := by omega
    refine ⟨?_, ?_, ?_, ?_⟩
    · intro hpfx
      simp [CreateHost, h1, h2, h3, haddr, hpfx]
    · intro hpfx
      have hshape : CreateHost env scopeId (some host) (some pid) =
          createHostFinish env scopeId
            { host with address := goTrimSpace host.address, publicId := pid } [] := by
        simp [CreateHost, h1, h2, h3, haddr, hpfx]
      constructor
      · intro hh heq
        rw [hshape] at heq
        have := createHostFinish_ok_val env scopeId _ [] hh heq
        rw [this]
      · rw [hshape, createHostFinish_trace_genId]
        rfl
    · intro hh heq
      rcases hnew : env.newIdOk with _ | _
      · simp [CreateHost, h1, h2, h3, haddr, hnew] at heq
      · have hshape : CreateHost env scopeId (some host) none =
            createHostFinish env scopeId
              { host with address := goTrimSpace host.address, publicId := env.newId }
              [.genId] := by
          simp [CreateHost, h1, h2, h3, haddr, hnew]
        rw [hshape] at heq
        have := createHostFinish_ok_val env scopeId _ [.genId] hh heq
        rw [this]
    · rcases hnew : env.newIdOk with _ | _
      · simp [CreateHost, h1, h2, h3, haddr, hnew, hasGenId]
      · have hshape : CreateHost env scopeId (some host) none =
            createHostFinish env scopeId
              { host with address := goTrimSpace host.address, publicId := env.newId }
              [.genId] := by
          simp [CreateHost, h1, h2, h3, haddr, hnew]
        rw [hshape, createHostFinish_trace_genId]
        rfl
  · intro h1 h2
    refine ⟨?_, ?_, ?_, ?_⟩
    · intro hpfx
      simp [CreateCatalog, h1, h2, hpfx]
    · intro hpfx
      have hshape : CreateCatalog env (some cat) (some pid) =
          createCatalogFinish env { cat with publicId := pid } [] := by
        simp [CreateCatalog, h1, h2, hpfx]
      constructor
      · intro c2 heq
        rw [hshape] at heq
        have := createCatalogFinish_ok_val env _ [] c2 heq
        rw [this]
      · rw [hshape, createCatalogFinish_trace_genId]
        rfl
    · intro c2 heq
      rcases hnew : env.newIdOk with _ | _
      · simp [CreateCatalog, h1, h2, hnew] at heq
      · have hshape : CreateCatalog env (some cat) none =
            createCatalogFinish env { cat with publicId := env.newId } [.genId] := by
          simp [CreateCatalog, h1, h2, hnew]
        rw [hshape] at heq
        have := createCatalogFinish_ok_val env _ [.genId] c2 heq
        rw [this]
    · rcases hnew : env.newIdOk with _ | _
      · simp [CreateCatalog, h1, h2, hnew, hasGenId]
      · have hshape : CreateCatalog env (some cat) none =
            createCatalogFinish env { cat with publicId := env.newId } [.genId] := by
          simp [CreateCatalog, h1, h2, hnew]
        rw [hshape, createCatalogFinish_trace_genId]
        rfl

/-- C10 witness: a wrong-prefix supplied id fails before any
transaction, a right-prefix supplied id skips generation, and the
no-option call generates an id, at concrete inputs. -/
theorem C10_witness :
    CreateHost envBase "scope1" (some { host1 with publicId := "" }) (some "bad_1") =
      (.error (newE .invalidParameter "fVA68Amp1G"
        (some ("passed-in public ID \"" ++ "bad_1" ++ "\" has wrong prefix, should be \"" ++
          hostPfx ++ "\"")) none), []) ∧
    hasGenId (CreateHost envBase "scope1" (some { host1 with publicId := "" })
      (some "hst_7")).2 = false ∧
    hasGenId (CreateHost envBase "scope1" (some { host1 with publicId := "" }) none).2 =
      true := by
  have hbad := (C10_create_honors_public_id_option envBase "scope1"
    { host1 with publicId := "" } catalog1 "bad_1").1 (by decide) (by decide) (by decide)
    (by decide) (by decide)
  have hgood := (C10_create_honors_public_id_option envBase "scope1"
    { host1 with publicId := "" } catalog1 "hst_7").1 (by decide) (by decide) (by decide)
    (by decide) (by decide)
  exact ⟨hbad.1 (by decide), (hgood.2.1 (by decide)).2, hgood.2.2.2⟩

theorem tlName : toLowerGo "Name" = "name" := by decide

theorem tlLowName : toLowerGo "name" = "name" := by decide

theorem tlNameDesc : ¬(toLowerGo "Name" = toLowerGo "Description") := by decide

theorem tlNameAddr : ¬(toLowerGo "Name" = toLowerGo "Address") := by decide

theorem updateHostMask_Name (h : Host) : updateHostMaskLoop h ["Name"] = .ok h := by
  simp [updateHostMaskLoop, tlName]

theorem buildPaths_Name (h : Host) :
    ¬((buildUpdatePaths h ["Name"]).1 = [] ∧ (buildUpdatePaths h ["Name"]).2 = []) := by
  by_cases hn : h.name = "" <;>
    simp [buildUpdatePaths, hn, tlName, tlNameDesc, tlNameAddr]

theorem catalogMask_name (c : HostCatalog) :
    updateCatalogMaskLoop c ["name"] =
      .ok (if c.name = "" then ([], ["name"]) else (["name"], [])) := by
  by_cases hn : c.name = "" <;> simp [updateCatalogMaskLoop, tlLowName, hn]

/-- C6: whenever the store reports more than one affected row and no
error for a public-id-scoped mutation — UpdateHost, DeleteHost,
UpdateCatalog, DeleteCatalog, and the set-version update used by the
member operations — the operation reports an error whose chain carries
the MultipleRecords code, and the transaction aborts: the trace contains
no commit, so the mutation never silently succeeds having touched more
than one row. -/
theorem C6_multiple_records_aborts (env : Env) (n : Nat) (hn : 1 < n) :
    (∀ (md : Metadata) (msgs : Nat), env.updateRows = .ok n →
      (updateVersion env md msgs).1 = some (newE .multipleRecords "t0nw1GFJ4v" none none)) ∧
    (∀ (scopeId : String) (host : Host) (version : Nat),
      env.updateRows = .ok n → env.getWrapperOk = true →
      host.publicId ≠ "" → version ≠ 0 → scopeId ≠ "" →
      (∃ e, (UpdateHost env scopeId (some host) version ["Name"]).1 = .error e ∧
        chainHasCode e .multipleRecords = true) ∧
      hasTxCommit (UpdateHost env scopeId (some host) version ["Name"]).2 = false) ∧
    (∀ (scopeId publicId : String),
      env.deleteRows = .ok n → env.getWrapperOk = true → publicId ≠ "" →
      (∃ e, (DeleteHost env scopeId publicId).1 = .error e ∧
        chainHasCode e .multipleRecords = true) ∧
      hasTxCommit (DeleteHost env scopeId publicId).2 = false) ∧
    (∀ (cat : HostCatalog) (version : Nat),
      env.updateRows = .ok n → env.getWrapperOk = true →
      cat.publicId ≠ "" → cat.scopeId ≠ "" →
      (∃ e, (UpdateCatalog env (some cat) version ["name"]).1 = .error e ∧
        chainHasCode e .multipleRecords = true) ∧
      hasTxCommit (UpdateCatalog env (some cat) version ["name"]).2 = false) ∧
    (∀ (id : String),
      env.deleteRows = .ok n → env.getWrapperOk = true →
      env.lookupErr = none → env.catalogRow.scopeId ≠ "" → id ≠ "" →
      (∃ e, (DeleteCatalog env id).1 = .error e ∧
        chainHasCode e .multipleRecords = true) ∧
      hasTxCommit (DeleteCatalog env id).2 = false) := by
  refine ⟨?_, ?_, ?_, ?_, ?_⟩
  · intro md msgs hu
    simp [updateVersion, hu, hn]
  · intro scopeId host version hu hok hpub hv hs
    have hmask := updateHostMask_Name host
    have hmasks := buildPaths_Name host
    have hb1 : (updateHostTx env).1 = some (newE .multipleRecords "xJBYJRMXXe" none none) := by
      simp [updateHostTx, hu, hn]
    have hd1 : (DoTx stdRetryCnt (updateHostTx env).1 (updateHostTx env).2.2
        env.retryable).1 = some (newE .multipleRecords "xJBYJRMXXe" none none) := by
      cases hr : env.retryable <;> simp [DoTx, hb1]
    have hres1 : (UpdateHost env scopeId (some host) version ["Name"]).1 =
        .error (newE .unknown "Hap3HE7q12"
          (some ("catalog: " ++ host.catalogId ++ ": \"" ++ host.name ++ "\""))
          (some (newE .multipleRecords "xJBYJRMXXe" none none))) := by
      simp [UpdateHost, hpub, hv, hs, hmask, hmasks, hok, hd1, Convert, newE, mkErr]
    have hres2 : (UpdateHost env scopeId (some host) version ["Name"]).2 =
        .getWrapper scopeId :: (DoTx stdRetryCnt (updateHostTx env).1
          (updateHostTx env).2.2 env.retryable).2 := by
      simp [UpdateHost, hpub, hv, hs, hmask, hmasks, hok, hd1, Convert, newE, mkErr]
    refine ⟨⟨_, hres1, by simp only [chainHasCode, newE, mkErr]; decide⟩, ?_⟩
    rw [hres2, hb1]
    simp only [hasTxCommit]
    exact hasTxCommit_DoTx_fail stdRetryCnt _ _ env.retryable (body_updateHostTx env).2
  · intro scopeId publicId hu hok hpub
    have hb1 : (deleteHostTx env).1 = some (newE .multipleRecords "F6r9DCCqM7" none none) := by
      simp [deleteHostTx, hu, hn]
    have hd1 : (DoTx stdRetryCnt (deleteHostTx env).1 (deleteHostTx env).2.2
        env.retryable).1 = some (newE .multipleRecords "F6r9DCCqM7" none none) := by
      cases hr : env.retryable <;> simp [DoTx, hb1]
    have hres1 : (DeleteHost env scopeId publicId).1 =
        .error (wrapE (newE .multipleRecords "F6r9DCCqM7" none none) "R7CFLLqqYn"
          (some ("failed to delete " ++ publicId))) := by
      simp [DeleteHost, hpub, hok, hd1]
    have hres2 : (DeleteHost env scopeId publicId).2 =
        .getWrapper scopeId :: (DoTx stdRetryCnt (deleteHostTx env).1
          (deleteHostTx env).2.2 env.retryable).2 := by
      simp [DeleteHost, hpub, hok, hd1]
    refine ⟨⟨_, hres1, by simp only [chainHasCode, wrapE, errCodeOf, newE, mkErr]; decide⟩, ?_⟩
    rw [hres2, hb1]
    simp only [hasTxCommit]
    exact hasTxCommit_DoTx_fail stdRetryCnt _ _ env.retryable (body_deleteHostTx env).2
  · intro cat version hu hok hpub hs
    have hmask := catalogMask_name cat
    have hb1 : (updateCatalogTx env).1 =
        some (newE .multipleRecords "obC7MjAGtj" none none) := by
      simp [updateCatalogTx, hu, hn]
    have hd1 : (DoTx stdRetryCnt (updateCatalogTx env).1 (updateCatalogTx env).2.2
        env.retryable).1 = some (newE .multipleRecords "obC7MjAGtj" none none) := by
      cases hr : env.retryable <;> simp [DoTx, hb1]
    have hres1 : (UpdateCatalog env (some cat) version ["name"]).1 =
        .error (newE .unknown "2mvrnq45Ap"
          (some ("static host catalog: " ++ cat.publicId))
          (some (newE .multipleRecords "obC7MjAGtj" none none))) := by
      simp [UpdateCatalog, hpub, hs, hmask, hok, hd1, Convert, newE, mkErr]
    have hres2 : (UpdateCatalog env (some cat) version ["name"]).2 =
        .getWrapper cat.scopeId :: (DoTx stdRetryCnt (updateCatalogTx env).1
          (updateCatalogTx env).2.2 env.retryable).2 := by
      simp [UpdateCatalog, hpub, hs, hmask, hok, hd1, Convert, newE, mkErr]
    refine ⟨⟨_, hres1, by simp only [chainHasCode, newE, mkErr]; decide⟩, ?_⟩
    rw [hres2, hb1]
    simp only [hasTxCommit]
    exact hasTxCommit_DoTx_fail stdRetryCnt _ _ env.retryable (body_updateCatalogTx env).2
  · intro id hu hok hl hs hid
    have hb1 : (deleteCatalogTx env).1 =
        some (newE .multipleRecords "QOsAOsa7c1" none none) := by
      simp [deleteCatalogTx, hu, hn]
    have hd1 : (DoTx stdRetryCnt (deleteCatalogTx env).1 (deleteCatalogTx env).2.2
        env.retryable).1 = some (newE .multipleRecords "QOsAOsa7c1" none none) := by
      cases hr : env.retryable <;> simp [DoTx, hb1]
    have hres1 : (DeleteCatalog env id).1 =
        .error (wrapE (newE .multipleRecords "QOsAOsa7c1" none none) "sbH5pLPOM3"
          (some ("failed to delete " ++ env.catalogRow.publicId))) := by
      simp [DeleteCatalog, hid, hl, hs, hok, hd1]
    have hres2 : (DeleteCatalog env id).2 =
        .lookup :: .getWrapper env.catalogRow.scopeId :: (DoTx stdRetryCnt
          (deleteCatalogTx env).1 (deleteCatalogTx env).2.2 env.retryable).2 := by
      simp [DeleteCatalog, hid, hl, hs, hok, hd1]
    refine ⟨⟨_, hres1, by simp only [chainHasCode, wrapE, errCodeOf, newE, mkErr]; decide⟩, ?_⟩
    rw [hres2, hb1]
    simp only [hasTxCommit]
    exact hasTxCommit_DoTx_fail stdRetryCnt _ _ env.retryable (body_deleteCatalogTx env).2

/-- C6 witness: the set-version update and DeleteHost evaluated under a
store that reports two affected rows. -/
theorem C6_witness :
    (updateVersion envRows2 (hostSetOplogMeta "hsst_1" opCreate) 1).1 =
      some (newE .multipleRecords "t0nw1GFJ4v" none none) ∧
    (∃ e, (DeleteHost envRows2 "scope1" "hst_1").1 = .error e ∧
      chainHasCode e .multipleRecords = true) ∧
    hasTxCommit (DeleteHost envRows2 "scope1" "hst_1").2 = false := by
  refine ⟨?_, ?_, ?_⟩
  · exact (C6_multiple_records_aborts envRows2 2 (by decide)).1
      (hostSetOplogMeta "hsst_1" opCreate) 1 rfl
  · exact ((C6_multiple_records_aborts envRows2 2 (by decide)).2.2.1 "scope1" "hst_1"
      rfl rfl (by decide)).1
  · exact ((C6_multiple_records_aborts envRows2 2 (by decide)).2.2.1 "scope1" "hst_1"
      rfl rfl (by decide)).2

theorem partitionChanges_ok (setId : String) (cs : List Change) (hset : setId ≠ "")
    (hids : ∀ c ∈ cs, c.hostId ≠ "") :
    partitionChanges setId cs = .ok (changeDeletions setId cs, changeAdditions setId cs) := by
  induction cs with
  | nil => simp [partitionChanges, changeDeletions, changeAdditions]
  | cons c rest ih =>
    have hc : c.hostId ≠ "" := hids c (by simp)
    have hrest := ih (fun x hx => hids x (by simp [hx]))
    by_cases ha : c.action = "delete"
    · simp [partitionChanges, NewHostSetMember, hset, hc, hrest, changeDeletions,
        changeAdditions, ha, List.filter]
    · by_cases hb : c.action = "add" <;>
        simp [partitionChanges, NewHostSetMember, hset, hc, hrest, changeDeletions,
          changeAdditions, ha, hb, List.filter]

/-- C4 counterexample: a non-empty delta consisting only of additions
produces one committed transaction whose single oplog entry carries the
op-type tags [UPDATE, CREATE] — the DELETE tag is absent, so the claim
that the tag list of every non-empty-delta SetSetMembers oplog entry
contains both CREATE and DELETE is false at this input. -/
theorem C4_counterexample :
    (SetSetMembers envC4 "scope1" "hsst_1" 1 ["hst_2"]).1 = .ok ([host2], 1) ∧
    writeOplogTagLists (SetSetMembers envC4 "scope1" "hsst_1" 1 ["hst_2"]).2 =
      [[opUpdate, opCreate]] ∧
    ([opUpdate, opCreate].contains opDelete) = false := by
  decide

/-- C4 (amended): for a SetSetMembers call whose computed delta is
non-empty, one transaction deletes the deletion rows (when there are
any), inserts the addition rows (when there are any), bumps the set's
version, and writes exactly one oplog entry; the entry's metadata
op-type tag list starts with the set metadata's UPDATE tag and then
contains the DELETE tag iff the delta has deletions and the CREATE tag
iff it has additions, with the deletion tag recorded before the addition
tag when both are present. -/
theorem C4_nonempty_delta_one_tx (env : Env) (scopeId setId : String) (version : Nat)
    (hostIds : List String) (cs : List Change) (hs : List Host)
    (h1 : scopeId ≠ "") (h2 : setId ≠ "") (h3 : version ≠ 0)
    (hch : env.changesRows = .ok cs) (hne : cs ≠ [])
    (hids : ∀ c ∈ cs, c.hostId ≠ "")
    (hok : env.getWrapperOk = true)
    (hci : env.createItemsErr = none)
    (hdi : env.deleteItemsRows = .ok (changeDeletions setId cs).length)
    (hur : env.updateRows = .ok 1)
    (hti : env.getTicketErr = none) (hwo : env.writeOplogErr = none)
    (hse : env.searchHosts = .ok hs) :
    SetSetMembers env scopeId setId version hostIds =
      (.ok (hs, cs.length),
        .query :: .getWrapper scopeId ::
          txAttemptTrace (
            (if changeDeletions setId cs = [] then []
             else [.deleteItems (changeDeletions setId cs).length]) ++
            (if changeAdditions setId cs = [] then []
             else [.createItems (changeAdditions setId cs).length]) ++
            [.updateRow, .getTicket,
              .writeOplog
                ([opUpdate] ++
                  (if changeDeletions setId cs = [] then [] else [opDelete]) ++
                  (if changeAdditions setId cs = [] then [] else [opCreate]))
                ((changeDeletions setId cs).length +
                  (changeAdditions setId cs).length + 1),
              .searchWhere]) false) ∧
    writeOplogTagLists (SetSetMembers env scopeId setId version hostIds).2 =
      [[opUpdate] ++ (if changeDeletions setId cs = [] then [] else [opDelete]) ++
        (if changeAdditions setId cs = [] then [] else [opCreate])] := by
  have hpart := partitionChanges_ok setId cs h2 hids
  have hlen : 0 < cs.length := List.length_pos.mpr hne
  have hdm : deleteMembers env (changeDeletions setId cs) =
      (.ok (changeDeletions setId cs).length,
        [.deleteItems (changeDeletions setId cs).length]) := by
    simp [deleteMembers, hdi]
  have hcm : createMembers env (changeAdditions setId cs) =
      (.ok (changeAdditions setId cs).length,
        [.createItems (changeAdditions setId cs).length]) := by
    simp [createMembers, hci]
  have hupd : ∀ (tags : List String) (msgs : Nat),
      updateVersion env ⟨setId, tags⟩ msgs =
        (none, [.updateRow, .getTicket, .writeOplog tags (msgs + 1)]) := by
    intro tags msgs
    simp [updateVersion, hur, hti, hwo]
  have hfin : ∀ (tags : List String) (msgs : Nat) (pre : List Event),
      setMembersFinish env setId tags msgs pre =
        (none, hs, pre ++ [.updateRow, .getTicket, .writeOplog tags (msgs + 1),
          .searchWhere]) := by
    intro tags msgs pre
    simp [setMembersFinish, hupd, getHosts, hse]
  have htx : setSetMembersTx env setId (changeDeletions setId cs)
      (changeAdditions setId cs) =
      (none, hs,
        (if changeDeletions setId cs = [] then []
         else [.deleteItems (changeDeletions setId cs).length]) ++
        (if changeAdditions setId cs = [] then []
         else [.createItems (changeAdditions setId cs).length]) ++
        [.updateRow, .getTicket,
          .writeOplog
            ([opUpdate] ++
              (if changeDeletions setId cs = [] then [] else [opDelete]) ++
              (if changeAdditions setId cs = [] then [] else [opCreate]))
            ((changeDeletions setId cs).length +
              (changeAdditions setId cs).length + 1),
          .searchWhere]) := by
    by_cases hd0 : changeDeletions setId cs = [] <;>
      by_cases ha0 : changeAdditions setId cs = [] <;>
      simp [setSetMembersTx, hd0, ha0, hdm, hcm, hfin]
  have hmain : SetSetMembers env scopeId setId version hostIds =
      (.ok (hs, cs.length),
        .query :: .getWrapper scopeId ::
          txAttemptTrace (
            (if changeDeletions setId cs = [] then []
             else [.deleteItems (changeDeletions setId cs).length]) ++
            (if changeAdditions setId cs = [] then []
             else [.createItems (changeAdditions setId cs).length]) ++
            [.updateRow, .getTicket,
              .writeOplog
                ([opUpdate] ++
                  (if changeDeletions setId cs = [] then [] else [opDelete]) ++
                  (if changeAdditions setId cs = [] then [] else [opCreate]))
                ((changeDeletions setId cs).length +
                  (changeAdditions setId cs).length + 1),
              .searchWhere]) false) := by
    simp [SetSetMembers, h1, h2, h3, hch, hpart, hlen, hok, htx, DoTx]
  refine ⟨hmain, ?_⟩
  rw [hmain]
  by_cases hd0 : changeDeletions setId cs = [] <;>
    by_cases ha0 : changeAdditions setId cs = [] <;>
    simp [hd0, ha0, writeOplogTagLists, txAttemptTrace]

/-- C4 witness: the amended transaction shape evaluated for a concrete
pure-addition delta. -/
theorem C4_witness :
    SetSetMembers envC4 "scope1" "hsst_1" 1 ["hst_2"] =
      (.ok ([host2], 1),
        [.query, .getWrapper "scope1", .txBegin, .createItems 1, .updateRow, .getTicket,
          .writeOplog [opUpdate, opCreate] 2, .searchWhere, .txCommit]) := by
  have h := C4_nonempty_delta_one_tx envC4 "scope1" "hsst_1" 1 ["hst_2"]
    [⟨"add", "hst_2"⟩] [host2] (by decide) (by decide) (by decide) rfl (by decide)
    (by decide) rfl rfl (by decide) rfl rfl rfl rfl
  exact h.1.trans (by decide)

end Boundary
